import Mathlib

/-!
# Verification of the StrangePico costume controller

Shallow embedding of `src/main_scripts/trial_with_irq.py`: the pixel color
model (`StrangePixel`), the interrupt/debounce layer (`StateManager` flags and
the shared one-shot `Timer`), and the three-phase animation cycle run by
`DoctorStrangeCostume.run_main_loop` (propagate-and-charge, fade-to-target,
resonate).

Modelling conventions:
* Python integers are `ℤ`; Python floats that only ever hold exact small
  rationals (the fade step sizes `d / 20`, the resonance start index
  `144 / 3 * 2 + 1`) are `ℚ` — for these values binary floating point is
  exact enough that truncation agrees with the rational model (`d / 20` is
  never within 1/20 of a different integer, and 48.0·2+1 = 97.0 exactly).
* `math.sin` is modelled over `ℝ` with `Real.sin`; the animation cycle is
  parametrised by the injected head intensity `inject : ℕ → ℤ`, which the
  source instantiates with `injected_intensity` (a pure function of the
  iteration counter only — it reads `pixels[0].x`, which is fixed at
  construction).
* Python `int(...)` truncates toward zero: `py_int`.
* Interrupt handlers only set flags; the main loop observes them at its
  `refresh_and_check_state` polls.  The environment is modelled as a
  schedule `obs : ℕ → Arrivals` giving the flags raised by handlers since
  the previous poll; `Costume.poll` delivers them and then runs the source's
  `refresh_and_check_state`.
* Ghost instrumentation (never read by the model itself): `flushed` logs
  each frame written by `update` (the `NeoPixel.write()` flush), `polls`
  counts `refresh_and_check_state` calls, and `trace` records the
  interleaving of poll and frame events.
-/

namespace StrangePico

/-- An RGB channel triple as handed to the NeoPixel strip. -/
abbrev RGB : Type := ℤ × ℤ × ℤ

/-- Python `int(q)` on an exact rational: truncation toward zero. -/
def py_int (q : ℚ) : ℤ :=
  if 0 ≤ q then ⌊q⌋ else -⌊-q⌋

/-! ## StrangePixel (source lines 22–54)

The real-valued `x` field is only ever read inside the sinusoid for pixel 0;
it is modelled separately by `pixel_x` below, so the executable pixel record
holds the integer fields. -/

/-- One pixel of the strip: `index`, current `intensity` and the derived
channel triple, mirroring `StrangePixel.__init__`. -/
structure StrangePixel where
  index : ℕ
  intensity : ℤ
  red : ℤ
  green : ℤ
  blue : ℤ
  deriving DecidableEq, Repr

/-- `StrangePixel.set_pixel_intensity` (source lines 39–54): store the
intensity and derive the channels from the good/evil flag. -/
def StrangePixel.set_pixel_intensity (p : StrangePixel) (intensity : ℤ)
    (evil : Bool) : StrangePixel :=
  if evil = false then
    { p with intensity := intensity, red := 0, green := intensity, blue := 0 }
  else
    { p with intensity := intensity, red := intensity, green := 0, blue := intensity }

/-! ## The interrupt/debounce layer (source lines 57–114)

Each handler, when its line's IRQ is armed, disables the line's IRQ, sets the
line's flag, and re-initialises `self.timer` — the single shared `Timer`
instance created in `StateManager.__init__` — as a one-shot whose callback
re-arms that same line.  Re-initialising an already pending `machine.Timer`
cancels its previous schedule, so the model keeps one `Option Line` slot. -/

/-- The three input lines (charge button GP16, moral button GP19, abort
button GP22). -/
inductive Line : Type where
  | charge_button : Line
  | good_evil_button : Line
  | off_button : Line
  deriving DecidableEq, Repr

/-- IRQ-level state: per-line armed bits and request flags, plus the single
shared one-shot timer slot (`some l` = a re-arm of line `l` is pending). -/
structure IrqState where
  charge_armed : Bool
  good_evil_armed : Bool
  off_armed : Bool
  charge_requested : Bool
  toggle_good_evil_requested : Bool
  abort_requested : Bool
  timer : Option Line
  deriving DecidableEq, Repr

/-- Whether edge detection is currently enabled on a line. -/
def IrqState.armed (s : IrqState) : Line → Bool
  | .charge_button => s.charge_armed
  | .good_evil_button => s.good_evil_armed
  | .off_button => s.off_armed

/-- The request flag of a line. -/
def IrqState.flag (s : IrqState) : Line → Bool
  | .charge_button => s.charge_requested
  | .good_evil_button => s.toggle_good_evil_requested
  | .off_button => s.abort_requested

/-- Set a line's armed bit. -/
def IrqState.set_armed (s : IrqState) (l : Line) (b : Bool) : IrqState :=
  match l with
  | .charge_button => { s with charge_armed := b }
  | .good_evil_button => { s with good_evil_armed := b }
  | .off_button => { s with off_armed := b }

/-- Set a line's request flag. -/
def IrqState.set_flag (s : IrqState) (l : Line) (b : Bool) : IrqState :=
  match l with
  | .charge_button => { s with charge_requested := b }
  | .good_evil_button => { s with toggle_good_evil_requested := b }
  | .off_button => { s with abort_requested := b }

/-- Events at the IRQ layer: a raw rising edge on a line, or expiry of the
shared one-shot timer. -/
inductive IrqEvent : Type where
  | edge : Line → IrqEvent
  | timer_fire : IrqEvent
  deriving DecidableEq, Repr

/-- One IRQ-layer step.  A rising edge invokes the handler only if the line
is armed (`pin.irq(handler=None)` removed the callback otherwise); the
handler disables the line, sets its flag, and re-inits the shared timer with
that line's re-arm callback (`handler_charge`, `handler_trigger_good_evil`,
`handler_should_abort`, source lines 87–114).  Timer expiry runs the pending
callback, which re-arms its line (`initialize_*_button`). -/
def irq_step (s : IrqState) (e : IrqEvent) : IrqState :=
  match e with
  | .edge l =>
      if s.armed l then
        { ((s.set_armed l false).set_flag l true) with timer := some l }
      else s
  | .timer_fire =>
      match s.timer with
      | some l => { s.set_armed l true with timer := none }
      | none => s

/-- Run a sequence of IRQ events. -/
def irq_run (s : IrqState) (es : List IrqEvent) : IrqState :=
  es.foldl irq_step s

/-- Whether processing event `e` in state `s` makes line `l`'s handler run
(and hence set the flag). -/
def handler_fires (s : IrqState) (e : IrqEvent) (l : Line) : Bool :=
  match e with
  | .edge l' => decide (l' = l) && s.armed l'
  | .timer_fire => false

/-- Number of times line `l`'s flag is set by the handler over an event
sequence. -/
def count_flag_sets (l : Line) : IrqState → List IrqEvent → ℕ
  | _, [] => 0
  | s, e :: es =>
      (if handler_fires s e l then 1 else 0) + count_flag_sets l (irq_step s e) es

/-- All lines armed, no flags pending, no timer pending: the state right
after `_initialize_button_monitors`. -/
def irq_initial : IrqState :=
  { charge_armed := true, good_evil_armed := true, off_armed := true,
    charge_requested := false, toggle_good_evil_requested := false,
    abort_requested := false, timer := none }

/-! ## Main-loop-level flag state

At the granularity of the animation loop only the flags and the mode matter;
the armed bits and timer live one layer down (`IrqState`). -/

/-- The `StateManager` fields read and written by the animation loop. -/
structure StateManager where
  charge_requested : Bool
  toggle_good_evil_requested : Bool
  abort_requested : Bool
  evil : Bool
  deriving DecidableEq, Repr

/-- Flags raised by interrupt handlers since the previous poll. -/
structure Arrivals where
  charge : Bool
  toggle : Bool
  abort : Bool
  deriving DecidableEq, Repr

/-- Handlers only ever set flags to `True`, so delivery is a disjunction. -/
def StateManager.deliver (sm : StateManager) (a : Arrivals) : StateManager :=
  { sm with
      charge_requested := sm.charge_requested || a.charge,
      toggle_good_evil_requested := sm.toggle_good_evil_requested || a.toggle,
      abort_requested := sm.abort_requested || a.abort }

/-- No handler activity between two polls. -/
def quiet : ℕ → Arrivals := fun _ => ⟨false, false, false⟩

/-! ## DoctorStrangeCostume (source lines 117–257) -/

/-- Poll/frame interleaving events (ghost instrumentation): a `poll` is one
call to `refresh_and_check_state`, a `frame` is one `update()` flush. -/
inductive Ev : Type where
  | poll : Ev
  | frame : Ev
  deriving DecidableEq, Repr

/-- The costume driver state: the pixel array and the state manager, plus
ghost fields `flushed` (each frame written to the strip), `polls` (number of
`refresh_and_check_state` calls so far) and `trace` (the poll/frame
interleaving). -/
structure Costume where
  pixels : List StrangePixel
  sm : StateManager
  flushed : List (List RGB)
  polls : ℕ
  trace : List Ev
  deriving DecidableEq, Repr

/-- Constants from `DoctorStrangeCostume.__init__` and the top of
`run_main_loop`. -/
def num_leds : ℕ := 144

/-- Number of oscillations during charging. -/
def num_charging_waves : ℕ := 3

/-- `num_leds / num_charging_waves` as the Python float 48.0 (exact). -/
def lights_per_period : ℚ := (num_leds : ℚ) / (num_charging_waves : ℚ)

/-- Number of times to charge before fading and resonating. -/
def num_times_to_charge : ℕ := 2

/-- Final target value for the arm while resonating the wrist. -/
def target_value : ℤ := 15

/-- Number of steps to fade to the target value. -/
def num_steps : ℕ := 20

/-- Maximum brightness during charge-up. -/
def max_val : ℤ := 255

/-- `DoctorStrangeCostume.update` (source lines 246–257), successful path:
append one frame of channel triples to the flush log. -/
def Costume.update (c : Costume) : Costume :=
  { c with
      flushed := c.flushed ++ [c.pixels.map fun p => (p.red, p.green, p.blue)],
      trace := c.trace ++ [Ev.frame] }

/-- `DoctorStrangeCostume.turn_off` (source lines 239–244): zero every
pixel, flush once, clear `abort_requested`. -/
def Costume.turn_off (c : Costume) : Costume :=
  let c1 : Costume :=
    { c with pixels := c.pixels.map fun p => p.set_pixel_intensity 0 c.sm.evil }
  let c2 := c1.update
  { c2 with sm := { c2.sm with abort_requested := false } }

/-- `DoctorStrangeCostume.refresh_and_check_state` (source lines 133–148).
Returns `false` when the main loop must abandon the current cycle. -/
def Costume.refresh_and_check_state (c : Costume) : Bool × Costume :=
  if c.sm.abort_requested then
    let c1 := c.turn_off
    (false, { c1 with sm := { c1.sm with abort_requested := false, charge_requested := false } })
  else
    let c1 : Costume :=
      if c.sm.toggle_good_evil_requested then
        let evil := !c.sm.evil
        let cA : Costume :=
          { c with
              pixels := c.pixels.map fun p => p.set_pixel_intensity p.intensity evil,
              sm := { c.sm with evil := evil } }
        let cB := cA.update
        { cB with sm := { cB.sm with toggle_good_evil_requested := false } }
      else c
    let c2 : Costume :=
      if c1.sm.charge_requested then
        { c1 with sm := { c1.sm with abort_requested := false } }
      else c1
    (true, c2)

/-- Deliver the flags raised since the previous poll, then run
`refresh_and_check_state`.  Ghost fields: bump `polls`, log a poll event. -/
def Costume.poll (obs : ℕ → Arrivals) (c : Costume) : Bool × Costume :=
  Costume.refresh_and_check_state
    { c with sm := c.sm.deliver (obs c.polls), polls := c.polls + 1,
             trace := c.trace ++ [Ev.poll] }

/-! ## Phase 1: propagate and charge (source lines 169–183)

The source walks `i` from `num_leds - 1` down to `1`, copying
`pixels[i-1].intensity` into `pixels[i]`; because the walk is high-to-low,
every read sees the pre-frame value, so the functional translation maps each
pixel (except the head) to its predecessor's old intensity. -/

/-- Tail of the shift: each pixel takes the old intensity of `prev`, its
predecessor in the original list. -/
def charge_shift_go (evil : Bool) (prev : StrangePixel) :
    List StrangePixel → List StrangePixel
  | [] => []
  | p :: rest => p.set_pixel_intensity prev.intensity evil :: charge_shift_go evil p rest

/-- The right-shift of intensities over the whole strip; the head pixel is
left for the sinusoid assignment that follows. -/
def charge_shift (evil : Bool) : List StrangePixel → List StrangePixel
  | [] => []
  | p0 :: rest => p0 :: charge_shift_go evil p0 rest

/-- Assign the newly computed intensity to `pixels[0]`. -/
def set_head (v : ℤ) (evil : Bool) : List StrangePixel → List StrangePixel
  | [] => []
  | p :: rest => p.set_pixel_intensity v evil :: rest

/-- One frame of the propagate-and-charge phase at iteration `t`: shift,
inject the sinusoid value at the head, flush. -/
def charge_body (inject : ℕ → ℤ) (t : ℕ) (c : Costume) : Costume :=
  Costume.update
    { c with pixels := set_head (inject t) c.sm.evil (charge_shift c.sm.evil c.pixels) }

/-- The poll-then-frame loop shared by phases 1 and 2 (source lines 169–172
and 197–200): before each body iteration, `refresh_and_check_state` is
called; on `False` the phase breaks with `should_restart_main_loop = True`
(the returned `Bool`). -/
def run_phase (obs : ℕ → Arrivals) (body : ℕ → Costume → Costume) :
    List ℕ → Costume → Bool × Costume
  | [], c => (false, c)
  | t :: rest, c =>
      match c.poll obs with
      | (false, c1) => (true, c1)
      | (true, c1) => run_phase obs body rest (body t c1)

/-! ## Phase 2: fade to the target value (source lines 189–215) -/

/-- The per-pixel step sizes captured once at phase entry:
`(target_value - pixels[i].intensity) / num_steps` as exact rationals. -/
def step_sizes_of (pixels : List StrangePixel) : List ℚ :=
  pixels.map fun p => ((target_value : ℚ) - (p.intensity : ℚ)) / (num_steps : ℚ)

/-- One fade frame: every pixel moves by its captured step, the result is
truncated by `int(...)` and clamped below at 0, then the frame is flushed. -/
def fade_body (steps : List ℚ) (_t : ℕ) (c : Costume) : Costume :=
  Costume.update
    { c with
        pixels := (c.pixels.zip steps).map fun ps =>
          let new_intensity := py_int ((ps.1.intensity : ℚ) + ps.2)
          let clamped := if new_intensity < 0 then 0 else new_intensity
          ps.1.set_pixel_intensity clamped c.sm.evil }

/-- The final pass (source lines 213–215): force every pixel to exactly
`target_value` and flush (no poll precedes this frame). -/
def final_snap (c : Costume) : Costume :=
  Costume.update
    { c with pixels := c.pixels.map fun p => p.set_pixel_intensity target_value c.sm.evil }

/-! ## Phase 3: resonate (source lines 217–231) -/

/-- The literal modifier table from source lines 221–222 (21 rising entries
0..20 followed by 19 falling entries 19..1). -/
def resonating_value_modifiers : List ℤ :=
  [0, 1, 2, 3, 4, 5, 6, 7, 8, 9, 10, 11, 12, 13, 14, 15, 16, 17, 18, 19, 20,
   19, 18, 17, 16, 15, 14, 13, 12, 11, 10, 9, 8, 7, 6, 5, 4, 3, 2, 1]

/-- `[target_value + x for x in resonating_value_modifiers]`. -/
def resonating_values : List ℤ :=
  resonating_value_modifiers.map fun x => target_value + x

/-- `self.num_charging_waves - 1`. -/
def periods_ignored : ℕ := num_charging_waves - 1

/-- `int(self.lights_per_period * periods_ignored + 1)` — the Python float
arithmetic here is exact (48.0 · 2 + 1 = 97.0). -/
def starting_point_for_resonating : ℤ :=
  py_int (lights_per_period * (periods_ignored : ℚ) + 1)

/-- The start index as a natural number for list indexing. -/
def starting_point_nat : ℕ := starting_point_for_resonating.toNat

/-- `for i in range(start, num_leds): pixels[i].set_pixel_intensity(val, evil)`:
pixels at positions `≥ start` take the table value, the rest are untouched.
`i` is the position of the current pixel in the original list. -/
def resonate_apply (val : ℤ) (evil : Bool) (start : ℕ) :
    ℕ → List StrangePixel → List StrangePixel
  | _, [] => []
  | i, p :: rest =>
      (if start ≤ i then p.set_pixel_intensity val evil else p) ::
        resonate_apply val evil start (i + 1) rest

/-- One repetition of the resonance table: one frame flushed per table
entry (source lines 228–231); no poll inside. -/
def resonate_rep (vals : List ℤ) (start : ℕ) (c : Costume) : Costume :=
  vals.foldl
    (fun c1 val =>
      Costume.update { c1 with pixels := resonate_apply val c1.sm.evil start 0 c1.pixels })
    c

/-- The resonate loop (source lines 225–231): `reps` repetitions, each
preceded by exactly one poll; a `False` poll breaks out. -/
def resonate_phase (obs : ℕ → Arrivals) (vals : List ℤ) (start : ℕ) :
    ℕ → Costume → Costume
  | 0, c => c
  | reps + 1, c =>
      match c.poll obs with
      | (false, c1) => c1
      | (true, c1) => resonate_phase obs vals start reps (resonate_rep vals start c1)

/-! ## The charge cycle and the main loop (source lines 150–237) -/

/-- The body of the `try` block for one charge cycle, entered after the
idle wait consumed `charge_requested`.  An aborted phase returns
immediately (`should_restart_main_loop` / the resonate `break`); a completed
cycle clears `charge_requested` at its very end (source line 234). -/
def run_charge_cycle (inject : ℕ → ℤ) (obs : ℕ → Arrivals) (c : Costume) : Costume :=
  match run_phase obs (charge_body inject) (List.range (num_leds * num_times_to_charge)) c with
  | (true, c1) => c1
  | (false, c1) =>
    let steps := step_sizes_of c1.pixels
    match run_phase obs (fade_body steps) (List.range num_steps) c1 with
    | (true, c2) => c2
    | (false, c2) =>
      let c3 := final_snap c2
      let c4 := resonate_phase obs resonating_values starting_point_nat 5 c3
      { c4 with sm := { c4.sm with charge_requested := false } }

/-- One iteration of `while True` (source lines 152–159): the idle wait
reads only `charge_requested`; when it is unset the loop sleeps and
continues with nothing changed, otherwise it clears the flag and runs a
charge cycle. -/
def main_loop_iteration (inject : ℕ → ℤ) (obs : ℕ → Arrivals) (c : Costume) : Costume :=
  if c.sm.charge_requested then
    run_charge_cycle inject obs { c with sm := { c.sm with charge_requested := false } }
  else c

/-- The pixel array built in `DoctorStrangeCostume.__init__`. -/
def initial_pixels : List StrangePixel :=
  (List.range num_leds).map fun i =>
    { index := i, intensity := 0, red := 0, green := 0, blue := 0 }

/-- The costume state at process start. -/
def initial_costume : Costume :=
  { pixels := initial_pixels,
    sm := { charge_requested := false, toggle_good_evil_requested := false,
            abort_requested := false, evil := false },
    flushed := [], polls := 0, trace := [] }

/-! ## The sinusoid injected at pixel 0 (source lines 124–130 and 178–182)

`math.sin` is modelled over `ℝ`.  The injected value depends only on the
iteration counter: `pixels[0].x` is fixed at construction and
`this_shift` is a function of `iteration` alone. -/

/-- `initial_offset = -pi / 2.0`. -/
noncomputable def initial_offset : ℝ := -Real.pi / 2

/-- `x = i * (2 * pi / self.lights_per_period) + initial_offset`. -/
noncomputable def pixel_x (i : ℕ) : ℝ :=
  (i : ℝ) * (2 * Real.pi / ((num_leds : ℝ) / (num_charging_waves : ℝ))) + initial_offset

/-- `this_shift = iteration * 2 * pi * self.num_charging_waves / self.num_leds`. -/
noncomputable def this_shift (iteration : ℕ) : ℝ :=
  (iteration : ℝ) * 2 * Real.pi * (num_charging_waves : ℝ) / (num_leds : ℝ)

/-- `amplitude = max_val / 2.0`. -/
noncomputable def amplitudeR : ℝ := (max_val : ℝ) / 2

/-- Python `int(x)` on a real: truncation toward zero. -/
noncomputable def py_int_real (x : ℝ) : ℤ :=
  if 0 ≤ x then ⌊x⌋ else -⌊-x⌋

/-- `int(amplitude + amplitude * sin(self.pixels[0].x - this_shift))`. -/
noncomputable def injected_intensity (iteration : ℕ) : ℤ :=
  py_int_real (amplitudeR + amplitudeR * Real.sin (pixel_x 0 - this_shift iteration))

/-- The charge cycle as the source runs it, head intensities injected by the
sinusoid. -/
noncomputable def run_charge_cycle_real (obs : ℕ → Arrivals) (c : Costume) : Costume :=
  run_charge_cycle injected_intensity obs c

/-! ## The display-write boundary with the range check (source lines 246–257)

Writing `self.strip[i] = (r, g, b)` raises `OverflowError` when a channel
falls outside a byte; `update` prints the offending triple and re-raises.
`update_checked` returns the first offending triple as an error. -/

/-- Whether a channel triple fits the strip's byte-per-channel format. -/
def rgb_in_range (t : RGB) : Bool :=
  decide (0 ≤ t.1) && decide (t.1 ≤ 255) && decide (0 ≤ t.2.1) &&
    decide (t.2.1 ≤ 255) && decide (0 ≤ t.2.2) && decide (t.2.2 ≤ 255)

/-- The strip-assignment loop of `update`: the first out-of-range triple is
raised (and logged); otherwise the whole frame is written. -/
def update_checked_go : List StrangePixel → Except RGB (List RGB)
  | [] => Except.ok []
  | p :: rest =>
      if rgb_in_range (p.red, p.green, p.blue) then
        (update_checked_go rest).map (fun f => (p.red, p.green, p.blue) :: f)
      else Except.error (p.red, p.green, p.blue)

/-- `update` with the `OverflowError` path made explicit. -/
def Costume.update_checked (c : Costume) : Except RGB (List RGB) :=
  update_checked_go c.pixels

/-- What becomes of the `while True` loop after one cycle. -/
inductive LoopDisposition : Type where
  | keep_running : LoopDisposition
  | process_terminated : LoopDisposition
  deriving DecidableEq, Repr

/-- The `try/except` at source lines 161 and 236–237: `except Exception`
catches every error escaping a cycle (the re-raised `OverflowError`
included), prints it, and the loop keeps running. -/
def cycle_catch (r : Except RGB Unit) : LoopDisposition :=
  match r with
  | Except.ok _ => LoopDisposition.keep_running
  | Except.error _ => LoopDisposition.keep_running

/-! ## Derived definitions used by the verification (folds, intensity
actions, event bookkeeping) -/

/-- The intensity trajectory: the per-pixel intensities of a costume state. -/
def Costume.intensities (c : Costume) : List ℤ :=
  c.pixels.map fun p => p.intensity

/-- All three request flags are down. -/
def flags_clear (sm : StateManager) : Prop :=
  sm.charge_requested = false ∧ sm.toggle_good_evil_requested = false ∧
    sm.abort_requested = false

/-- The ghost bookkeeping a poll performs before `refresh_and_check_state`. -/
def bump (c : Costume) : Costume :=
  { c with polls := c.polls + 1, trace := c.trace ++ [Ev.poll] }

/-- What `run_phase` computes when no abort ever fires: each iteration is a
ghost-bump (the poll) followed by the frame body. -/
def phase_fold (body : ℕ → Costume → Costume) (l : List ℕ) (c : Costume) : Costume :=
  l.foldl (fun c1 t => body t (bump c1)) c

/-- Concatenation of `n` copies of a block of events. -/
def repeat_list (n : ℕ) (b : List Ev) : List Ev :=
  match n with
  | 0 => []
  | m + 1 => b ++ repeat_list m b

/-- The intensity action of a charge frame: shift right, inject `v` at the
head, drop the last value. -/
def shift_ints (v : ℤ) : List ℤ → List ℤ
  | [] => []
  | a :: rest => v :: (a :: rest).dropLast

/-- The clamp at 0 applied during fade frames. -/
def clamp0 (n : ℤ) : ℤ := if n < 0 then 0 else n

/-- The intensity action of a fade frame. -/
def fade_ints (steps : List ℚ) (l : List ℤ) : List ℤ :=
  (l.zip steps).map fun as => clamp0 (py_int ((as.1 : ℚ) + as.2))

/-- The intensity action of one resonance table entry. -/
def apply_ints (val : ℤ) (start : ℕ) : ℕ → List ℤ → List ℤ
  | _, [] => []
  | i, a :: rest => (if start ≤ i then val else a) :: apply_ints val start (i + 1) rest

/-- The no-abort unfolding of the resonate loop: one ghost-bump (the single
poll) then one full table repetition, `reps` times. -/
def resonate_fold (vals : List ℤ) (start : ℕ) : ℕ → Costume → Costume
  | 0, c => c
  | n + 1, c => resonate_fold vals start n (resonate_rep vals start (bump c))

/-- The intensity action of one full table repetition. -/
def resonate_ints_rep (vals : List ℤ) (start : ℕ) (l : List ℤ) : List ℤ :=
  vals.foldl (fun l1 v => apply_ints v start 0 l1) l

/-- The undisturbed propagate-and-charge phase as a fold. -/
def cycle_charge_fold (inject : ℕ → ℤ) (c : Costume) : Costume :=
  phase_fold (charge_body inject) (List.range (num_leds * num_times_to_charge)) c

/-- The undisturbed fade phase as a fold, its step sizes captured from the
charge phase's final state. -/
def cycle_fade_fold (inject : ℕ → ℤ) (c : Costume) : Costume :=
  phase_fold (fade_body (step_sizes_of (cycle_charge_fold inject c).pixels))
    (List.range num_steps) (cycle_charge_fold inject c)

/-- The undisturbed resonate phase as a fold, entered after the final snap. -/
def cycle_resonate_fold (inject : ℕ → ℤ) (c : Costume) : Costume :=
  resonate_fold resonating_values starting_point_nat 5
    (final_snap (cycle_fade_fold inject c))

/-- What an undisturbed charge cycle computes: the three phase folds in
sequence, then the end-of-cycle clearing of `charge_requested`. -/
def cycle_fold (inject : ℕ → ℤ) (c : Costume) : Costume :=
  { cycle_resonate_fold inject c with
      sm := { (cycle_resonate_fold inject c).sm with charge_requested := false } }

/-! ## Concrete states used to instantiate the theorems -/

/-- A pixel holding intensity `v` with benign-mode channels. -/
def demo_pixel (i : ℕ) (v : ℤ) : StrangePixel :=
  { index := i, intensity := v, red := 0, green := v, blue := 0 }

/-- A two-pixel costume at rest: all flags down, benign mode. -/
def demo_costume : Costume :=
  { pixels := [demo_pixel 0 0, demo_pixel 1 0],
    sm := { charge_requested := false, toggle_good_evil_requested := false,
            abort_requested := false, evil := false },
    flushed := [], polls := 0, trace := [] }

/-- A one-pixel costume at full brightness, as at the end of a charge-up. -/
def fade_demo_costume : Costume :=
  { pixels := [demo_pixel 0 200],
    sm := { charge_requested := false, toggle_good_evil_requested := false,
            abort_requested := false, evil := false },
    flushed := [], polls := 0, trace := [] }

/-- Mid-cycle state with a fresh `charge_requested` raised by the handler
while the animation is running. -/
def charge_pending_costume : Costume :=
  { pixels := [demo_pixel 0 7, demo_pixel 1 9],
    sm := { charge_requested := true, toggle_good_evil_requested := false,
            abort_requested := false, evil := false },
    flushed := [], polls := 3, trace := [] }

/-- Idle state with toggle and abort presses left pending, no charge press. -/
def pending_costume : Costume :=
  { pixels := [demo_pixel 0 5, demo_pixel 1 6],
    sm := { charge_requested := false, toggle_good_evil_requested := true,
            abort_requested := true, evil := false },
    flushed := [], polls := 0, trace := [] }

/-- Idle state with a charge press and an abort press both pending. -/
def charge_abort_costume : Costume :=
  { pixels := [demo_pixel 0 5, demo_pixel 1 6],
    sm := { charge_requested := true, toggle_good_evil_requested := false,
            abort_requested := true, evil := false },
    flushed := [], polls := 0, trace := [] }

/-- Mid-cycle state with a toggle press pending. -/
def toggle_pending_costume : Costume :=
  { pixels := [demo_pixel 0 5, demo_pixel 1 6],
    sm := { charge_requested := false, toggle_good_evil_requested := true,
            abort_requested := false, evil := false },
    flushed := [], polls := 0, trace := [] }

/-- A costume holding a corrupted pixel whose derived channels lie outside
a byte: what `update` would meet if the clamps were broken. -/
def bad_costume : Costume :=
  { pixels := [demo_pixel 0 10, { index := 1, intensity := 300, red := 300,
                                  green := 0, blue := 300 }],
    sm := { charge_requested := false, toggle_good_evil_requested := false,
            abort_requested := false, evil := true },
    flushed := [], polls := 0, trace := [] }

/-! ## Basic lemmas about the pixel model and the flag state -/


theorem set_pixel_intensity_intensity (p : StrangePixel) (v : ℤ) (e : Bool) :
    (p.set_pixel_intensity v e).intensity = v := by
  cases e <;> simp [StrangePixel.set_pixel_intensity]

theorem set_pixel_intensity_index (p : StrangePixel) (v : ℤ) (e : Bool) :
    (p.set_pixel_intensity v e).index = p.index := by
  cases e <;> simp [StrangePixel.set_pixel_intensity]

theorem set_pixel_intensity_zero_rgb (p : StrangePixel) (e : Bool) :
    ((p.set_pixel_intensity 0 e).red, (p.set_pixel_intensity 0 e).green,
      (p.set_pixel_intensity 0 e).blue) = ((0 : ℤ), (0 : ℤ), (0 : ℤ)) := by
  cases e <;> simp [StrangePixel.set_pixel_intensity]

theorem deliver_quiet (sm : StateManager) : sm.deliver ⟨false, false, false⟩ = sm := by
  simp [StateManager.deliver]

theorem bump_sm (c : Costume) : (bump c).sm = c.sm := rfl

theorem bump_pixels (c : Costume) : (bump c).pixels = c.pixels := rfl

theorem bump_flushed (c : Costume) : (bump c).flushed = c.flushed := rfl

theorem update_sm (c : Costume) : c.update.sm = c.sm := rfl

theorem update_pixels (c : Costume) : c.update.pixels = c.pixels := rfl

/-- With all flags down, a state refresh does nothing and lets the phase
continue. -/
theorem refresh_clear (c : Costume) (hc : flags_clear c.sm) :
    c.refresh_and_check_state = (true, c) := by
  obtain ⟨h1, h2, h3⟩ := hc
  simp [Costume.refresh_and_check_state, h1, h2, h3]

/-- A quiet poll on a clear state only performs the ghost bookkeeping. -/
theorem poll_quiet_clear (c : Costume) (hc : flags_clear c.sm) :
    c.poll quiet = (true, bump c) := by
  have hb : flags_clear (bump c).sm := hc
  unfold Costume.poll
  rw [show quiet c.polls = ⟨false, false, false⟩ from rfl, deliver_quiet]
  exact refresh_clear (bump c) hb

/-! ## The generic poll-then-frame phase loop under a quiet environment -/


theorem phase_fold_nil (body : ℕ → Costume → Costume) (c : Costume) :
    phase_fold body [] c = c := rfl

theorem phase_fold_cons (body : ℕ → Costume → Costume) (t : ℕ) (l : List ℕ) (c : Costume) :
    phase_fold body (t :: l) c = phase_fold body l (body t (bump c)) := rfl

/-- Under a quiet environment and clear flags, a phase never aborts and
reduces to `phase_fold`. -/
theorem run_phase_quiet_clear (body : ℕ → Costume → Costume)
    (hsm : ∀ t c, (body t c).sm = c.sm) (l : List ℕ) :
    ∀ c : Costume, flags_clear c.sm →
      run_phase quiet body l c = (false, phase_fold body l c) := by
  induction l with
  | nil => intro c _; rfl
  | cons t rest ih =>
      intro c hc
      rw [run_phase, poll_quiet_clear c hc]
      have hnext : flags_clear (body t (bump c)).sm := by
        rw [hsm, bump_sm]; exact hc
      simp only [ih _ hnext, phase_fold_cons]

/-- `phase_fold` preserves the state-manager fields whenever the body does. -/
theorem phase_fold_sm (body : ℕ → Costume → Costume)
    (hsm : ∀ t c, (body t c).sm = c.sm) (l : List ℕ) :
    ∀ c : Costume, (phase_fold body l c).sm = c.sm := by
  induction l with
  | nil => intro c; rfl
  | cons t rest ih => intro c; rw [phase_fold_cons, ih, hsm, bump_sm]


/-- The trace of a quiet phase: one poll then one frame per iteration. -/
theorem phase_fold_trace (body : ℕ → Costume → Costume)
    (htr : ∀ t c, (body t c).trace = c.trace ++ [Ev.frame]) (l : List ℕ) :
    ∀ c : Costume,
      (phase_fold body l c).trace = c.trace ++ repeat_list l.length [Ev.poll, Ev.frame] := by
  induction l with
  | nil => intro c; simp [phase_fold_nil, repeat_list]
  | cons t rest ih =>
      intro c
      rw [phase_fold_cons, ih, htr]
      show (c.trace ++ [Ev.poll]) ++ [Ev.frame] ++ _ = _
      simp [repeat_list, List.length_cons]

/-- Each iteration of a quiet phase flushes exactly one frame. -/
theorem phase_fold_flushed (body : ℕ → Costume → Costume)
    (hfl : ∀ t c, (body t c).flushed.length = c.flushed.length + 1) (l : List ℕ) :
    ∀ c : Costume,
      (phase_fold body l c).flushed.length = c.flushed.length + l.length := by
  induction l with
  | nil => intro c; simp [phase_fold_nil]
  | cons t rest ih =>
      intro c
      rw [phase_fold_cons, ih, hfl]
      show c.flushed.length + 1 + rest.length = _
      simp [List.length_cons]; omega

/-- The intensity trajectory of a quiet phase is the fold of the body's
intensity action. -/
theorem phase_fold_intensities (body : ℕ → Costume → Costume)
    (F : ℕ → List ℤ → List ℤ)
    (hint : ∀ t c, (body t c).intensities = F t c.intensities) (l : List ℕ) :
    ∀ c : Costume,
      (phase_fold body l c).intensities = l.foldl (fun v t => F t v) c.intensities := by
  induction l with
  | nil => intro c; rfl
  | cons t rest ih =>
      intro c
      rw [phase_fold_cons, ih, hint]
      rfl

/-! ## Per-body facts: state-manager preservation, trace, flush count -/

theorem charge_body_sm (inject : ℕ → ℤ) (t : ℕ) (c : Costume) :
    (charge_body inject t c).sm = c.sm := rfl

theorem charge_body_trace (inject : ℕ → ℤ) (t : ℕ) (c : Costume) :
    (charge_body inject t c).trace = c.trace ++ [Ev.frame] := rfl

theorem charge_body_flushed (inject : ℕ → ℤ) (t : ℕ) (c : Costume) :
    (charge_body inject t c).flushed.length = c.flushed.length + 1 := by
  simp [charge_body, Costume.update]

theorem fade_body_sm (steps : List ℚ) (t : ℕ) (c : Costume) :
    (fade_body steps t c).sm = c.sm := rfl

theorem fade_body_trace (steps : List ℚ) (t : ℕ) (c : Costume) :
    (fade_body steps t c).trace = c.trace ++ [Ev.frame] := rfl

theorem fade_body_flushed (steps : List ℚ) (t : ℕ) (c : Costume) :
    (fade_body steps t c).flushed.length = c.flushed.length + 1 := by
  simp [fade_body, Costume.update]

theorem final_snap_sm (c : Costume) : (final_snap c).sm = c.sm := rfl

theorem final_snap_trace (c : Costume) : (final_snap c).trace = c.trace ++ [Ev.frame] := rfl

theorem resonate_rep_sm (vals : List ℤ) (start : ℕ) :
    ∀ c : Costume, (resonate_rep vals start c).sm = c.sm := by
  induction vals with
  | nil => intro c; rfl
  | cons v rest ih => intro c; exact ih _

theorem resonate_rep_trace (vals : List ℤ) (start : ℕ) :
    ∀ c : Costume,
      (resonate_rep vals start c).trace = c.trace ++ List.replicate vals.length Ev.frame := by
  induction vals with
  | nil => intro c; simp [resonate_rep]
  | cons v rest ih =>
      intro c
      show (resonate_rep rest start _).trace = _
      rw [ih]
      show (c.trace ++ [Ev.frame]) ++ _ = _
      simp [List.replicate_succ]

theorem resonate_rep_flushed (vals : List ℤ) (start : ℕ) :
    ∀ c : Costume,
      (resonate_rep vals start c).flushed.length = c.flushed.length + vals.length := by
  induction vals with
  | nil => intro c; simp [resonate_rep]
  | cons v rest ih =>
      intro c
      show (resonate_rep rest start _).flushed.length = _
      rw [ih]
      show (c.flushed ++ [_]).length + rest.length = _
      simp [List.length_cons]; omega

/-! ## The intensity-level action of each frame body -/





theorem charge_shift_go_map (e : Bool) :
    ∀ (l : List StrangePixel) (prev : StrangePixel),
      (charge_shift_go e prev l).map (fun p => p.intensity) =
        ((prev :: l).map fun p => p.intensity).dropLast := by
  intro l
  induction l with
  | nil => intro prev; simp [charge_shift_go]
  | cons p ps ih =>
      intro prev
      simp only [charge_shift_go, List.map_cons, ih p, List.dropLast_cons₂,
        set_pixel_intensity_intensity]

theorem charge_body_intensities (inject : ℕ → ℤ) (t : ℕ) (c : Costume) :
    (charge_body inject t c).intensities = shift_ints (inject t) c.intensities := by
  unfold charge_body Costume.intensities shift_ints
  cases hp : c.pixels with
  | nil => simp [Costume.update, charge_shift, set_head]
  | cons p0 rest =>
      simp only [Costume.update, charge_shift, set_head, List.map_cons,
        set_pixel_intensity_intensity, charge_shift_go_map, List.map_cons]

theorem fade_body_intensities (steps : List ℚ) (t : ℕ) (c : Costume) :
    (fade_body steps t c).intensities = fade_ints steps c.intensities := by
  unfold fade_body Costume.intensities fade_ints clamp0 Costume.update
  rw [List.zip_map_left, List.map_map, List.map_map]
  congr 1
  funext ps
  simp [set_pixel_intensity_intensity]

theorem final_snap_intensities (c : Costume) :
    (final_snap c).intensities = List.replicate c.pixels.length target_value := by
  unfold final_snap Costume.intensities Costume.update
  simp [Function.comp_def, set_pixel_intensity_intensity, List.map_const']

theorem resonate_apply_map (val : ℤ) (e : Bool) (start : ℕ) :
    ∀ (l : List StrangePixel) (i : ℕ),
      (resonate_apply val e start i l).map (fun p => p.intensity) =
        apply_ints val start i (l.map fun p => p.intensity) := by
  intro l
  induction l with
  | nil => intro i; rfl
  | cons p ps ih =>
      intro i
      simp only [resonate_apply, apply_ints, List.map_cons, ih,
        apply_ite (fun q : StrangePixel => q.intensity), set_pixel_intensity_intensity]

theorem resonate_rep_intensities (vals : List ℤ) (start : ℕ) :
    ∀ c : Costume,
      (resonate_rep vals start c).intensities =
        vals.foldl (fun l v => apply_ints v start 0 l) c.intensities := by
  induction vals with
  | nil => intro c; rfl
  | cons v rest ih =>
      intro c
      show (resonate_rep rest start _).intensities = _
      rw [ih]
      show _ = rest.foldl _ (apply_ints v start 0 c.intensities)
      congr 1
      exact resonate_apply_map v c.sm.evil start c.pixels 0

/-! ## The two poll outcomes the claims revolve around -/

/-- Zeroing a strip then reading the channel triples gives the all-black
frame. -/
theorem zeroed_frame (e : Bool) (pix : List StrangePixel) :
    (pix.map fun p => p.set_pixel_intensity 0 e).map (fun p => (p.red, p.green, p.blue)) =
      pix.map fun _ => ((0 : ℤ), (0 : ℤ), (0 : ℤ)) := by
  rw [List.map_map]
  exact List.map_congr_left fun p _ => set_pixel_intensity_zero_rgb p e

/-- A poll that observes `abort_requested` (pending or freshly delivered):
the phase is told to stop, every intensity is zeroed, exactly one all-black
frame is flushed, and both `abort_requested` and `charge_requested` end
cleared. -/
theorem poll_abort (obs : ℕ → Arrivals) (c : Costume)
    (h : (c.sm.abort_requested || (obs c.polls).abort) = true) :
    (c.poll obs).1 = false ∧
    (c.poll obs).2.pixels = (c.pixels.map fun p => p.set_pixel_intensity 0 c.sm.evil) ∧
    (c.poll obs).2.intensities = List.replicate c.pixels.length 0 ∧
    (c.poll obs).2.sm.abort_requested = false ∧
    (c.poll obs).2.sm.charge_requested = false ∧
    (c.poll obs).2.sm.evil = c.sm.evil ∧
    (c.poll obs).2.flushed = c.flushed ++ [c.pixels.map fun _ => ((0 : ℤ), (0 : ℤ), (0 : ℤ))] ∧
    (c.poll obs).2.trace = c.trace ++ [Ev.poll, Ev.frame] ∧
    (c.poll obs).2.polls = c.polls + 1 := by
  unfold Costume.poll Costume.refresh_and_check_state Costume.turn_off Costume.update
  simp [StateManager.deliver, h, Costume.intensities, List.map_map, Function.comp_def,
    set_pixel_intensity_intensity, set_pixel_intensity_zero_rgb, List.map_const']

/-- A poll that observes no abort lets the phase continue, leaves the
intensity trajectory untouched (a toggle only repaints), and keeps
`abort_requested` down. -/
theorem poll_no_abort (obs : ℕ → Arrivals) (c : Costume)
    (hA : c.sm.abort_requested = false) (ho : (obs c.polls).abort = false) :
    (c.poll obs).1 = true ∧
    (c.poll obs).2.intensities = c.intensities ∧
    (c.poll obs).2.sm.abort_requested = false ∧
    (c.poll obs).2.polls = c.polls + 1 := by
  unfold Costume.poll Costume.refresh_and_check_state Costume.update
  simp only [StateManager.deliver, hA, ho, Bool.or_false, Bool.false_or]
  have hint : ∀ e : Bool,
      (c.pixels.map fun p : StrangePixel => p.set_pixel_intensity p.intensity e).map
        (fun p : StrangePixel => p.intensity) =
          c.pixels.map fun p : StrangePixel => p.intensity := by
    intro e
    rw [List.map_map]
    exact List.map_congr_left fun p _ => set_pixel_intensity_intensity p p.intensity e
  by_cases ht : c.sm.toggle_good_evil_requested = true <;>
    by_cases hq : (obs c.polls).toggle = true <;>
      by_cases hcg : c.sm.charge_requested = true <;>
        by_cases hco : (obs c.polls).charge = true <;>
          simp [ht, hq, hcg, hco, Costume.intensities, hint]

/-! ## Abort-free phase runs -/

/-- As long as no abort is pending or delivered, a phase completes all its
iterations and its intensity trajectory is the fold of the body's intensity
action; `abort_requested` stays down throughout. -/
theorem run_phase_no_abort (body : ℕ → Costume → Costume) (F : ℕ → List ℤ → List ℤ)
    (hsm : ∀ t c, (body t c).sm = c.sm)
    (hint : ∀ t c, (body t c).intensities = F t c.intensities)
    (obs : ℕ → Arrivals) (hobs : ∀ k, (obs k).abort = false) (l : List ℕ) :
    ∀ c : Costume, c.sm.abort_requested = false →
      (run_phase obs body l c).1 = false ∧
      (run_phase obs body l c).2.sm.abort_requested = false ∧
      (run_phase obs body l c).2.intensities = l.foldl (fun v t => F t v) c.intensities := by
  induction l with
  | nil => intro c hc; exact ⟨rfl, hc, rfl⟩
  | cons t rest ih =>
      intro c hc
      obtain ⟨h1, h2, h3, _⟩ := poll_no_abort obs c hc (hobs c.polls)
      rcases hP : c.poll obs with ⟨b, c1⟩
      rw [hP] at h1 h2 h3
      subst h1
      have hb : (body t c1).sm.abort_requested = false := by rw [hsm]; exact h3
      obtain ⟨g1, g2, g3⟩ := ih (body t c1) hb
      refine ⟨?_, ?_, ?_⟩
      · simp only [run_phase, hP]; exact g1
      · simp only [run_phase, hP]; exact g2
      · simp only [run_phase, hP]
        rw [g3, hint]
        rw [show ((true, c1).2 : Costume) = c1 from rfl] at h2
        rw [h2]
        simp [List.foldl_cons]


theorem resonate_phase_quiet_clear (vals : List ℤ) (start : ℕ) :
    ∀ (reps : ℕ) (c : Costume), flags_clear c.sm →
      resonate_phase quiet vals start reps c = resonate_fold vals start reps c := by
  intro reps
  induction reps with
  | zero => intro c _; rfl
  | succ n ih =>
      intro c hc
      have hnext : flags_clear (resonate_rep vals start (bump c)).sm := by
        rw [resonate_rep_sm, bump_sm]; exact hc
      simp only [resonate_phase, poll_quiet_clear c hc, resonate_fold, ih _ hnext]

theorem resonate_fold_sm (vals : List ℤ) (start : ℕ) :
    ∀ (reps : ℕ) (c : Costume), (resonate_fold vals start reps c).sm = c.sm := by
  intro reps
  induction reps with
  | zero => intro c; rfl
  | succ n ih =>
      intro c
      show (resonate_fold vals start n _).sm = _
      rw [ih, resonate_rep_sm, bump_sm]

theorem resonate_fold_trace (vals : List ℤ) (start : ℕ) :
    ∀ (reps : ℕ) (c : Costume),
      (resonate_fold vals start reps c).trace =
        c.trace ++ repeat_list reps (Ev.poll :: List.replicate vals.length Ev.frame) := by
  intro reps
  induction reps with
  | zero => intro c; simp [resonate_fold, repeat_list]
  | succ n ih =>
      intro c
      show (resonate_fold vals start n _).trace = _
      rw [ih, resonate_rep_trace]
      show ((c.trace ++ [Ev.poll]) ++ List.replicate vals.length Ev.frame) ++ _ = _
      simp [repeat_list]

theorem resonate_fold_flushed (vals : List ℤ) (start : ℕ) :
    ∀ (reps : ℕ) (c : Costume),
      (resonate_fold vals start reps c).flushed.length =
        c.flushed.length + reps * vals.length := by
  intro reps
  induction reps with
  | zero => intro c; simp [resonate_fold]
  | succ n ih =>
      intro c
      show (resonate_fold vals start n _).flushed.length = _
      rw [ih, resonate_rep_flushed]
      show (bump c).flushed.length + vals.length + n * vals.length = _
      rw [bump_flushed]
      ring


/-- Abort-free resonate run: all `reps` repetitions happen and the intensity
trajectory is the iterate of the per-repetition action. -/
theorem resonate_phase_no_abort (obs : ℕ → Arrivals) (hobs : ∀ k, (obs k).abort = false)
    (vals : List ℤ) (start : ℕ) :
    ∀ (reps : ℕ) (c : Costume), c.sm.abort_requested = false →
      (resonate_phase obs vals start reps c).sm.abort_requested = false ∧
      (resonate_phase obs vals start reps c).intensities =
        (resonate_ints_rep vals start)^[reps] c.intensities := by
  intro reps
  induction reps with
  | zero => intro c hc; exact ⟨hc, rfl⟩
  | succ n ih =>
      intro c hc
      obtain ⟨h1, h2, h3, _⟩ := poll_no_abort obs c hc (hobs c.polls)
      rcases hP : c.poll obs with ⟨b, c1⟩
      rw [hP] at h1 h2 h3
      subst h1
      have hb : (resonate_rep vals start c1).sm.abort_requested = false := by
        rw [resonate_rep_sm]; exact h3
      obtain ⟨g1, g2⟩ := ih (resonate_rep vals start c1) hb
      constructor
      · simp only [resonate_phase, hP]; exact g1
      · simp only [resonate_phase, hP]
        rw [g2, resonate_rep_intensities, h2]
        rw [Function.iterate_succ_apply]
        rfl

/-- The fade step sizes are a function of the intensity trajectory alone. -/
theorem step_sizes_of_intensities (pixels : List StrangePixel) :
    step_sizes_of pixels =
      (pixels.map fun p => p.intensity).map
        (fun a : ℤ => ((target_value : ℚ) - (a : ℚ)) / (num_steps : ℚ)) := by
  unfold step_sizes_of
  rw [List.map_map]
  rfl

/-! ## Whole-cycle lemmas -/

theorem final_snap_flushed (c : Costume) :
    (final_snap c).flushed.length = c.flushed.length + 1 := by
  simp [final_snap, Costume.update]

theorem intensities_length (c : Costume) : c.intensities.length = c.pixels.length := by
  simp [Costume.intensities]

/-- A poll can only stop the phase through the abort branch, which leaves
both `charge_requested` and `abort_requested` cleared. -/
theorem poll_false_flags (obs : ℕ → Arrivals) (c : Costume) (h : (c.poll obs).1 = false) :
    (c.poll obs).2.sm.charge_requested = false ∧
    (c.poll obs).2.sm.abort_requested = false := by
  by_cases hA : (c.sm.abort_requested || (obs c.polls).abort) = true
  · obtain ⟨_, _, _, h4, h5, _⟩ := poll_abort obs c hA
    exact ⟨h5, h4⟩
  · exfalso
    rw [Bool.or_eq_true, not_or, Bool.not_eq_true, Bool.not_eq_true] at hA
    obtain ⟨h1, _⟩ := poll_no_abort obs c hA.1 hA.2
    rw [h1] at h
    exact Bool.true_eq_false.mp h

/-- A phase whose very first poll stops it executes no frame body at all. -/
theorem run_phase_abort_head (obs : ℕ → Arrivals) (body : ℕ → Costume → Costume)
    (t : ℕ) (rest : List ℕ) (c : Costume) (h : (c.poll obs).1 = false) :
    run_phase obs body (t :: rest) c = (true, (c.poll obs).2) := by
  rcases hP : c.poll obs with ⟨b, c1⟩
  rw [hP] at h
  simp only at h
  subst h
  simp only [run_phase, hP]

/-- A resonate loop whose first poll stops it performs no repetition. -/
theorem resonate_abort_head (obs : ℕ → Arrivals) (vals : List ℤ) (start reps : ℕ)
    (c : Costume) (h : (c.poll obs).1 = false) :
    resonate_phase obs vals start (reps + 1) c = (c.poll obs).2 := by
  rcases hP : c.poll obs with ⟨b, c1⟩
  rw [hP] at h
  simp only at h
  subst h
  simp only [resonate_phase, hP]

/-- When a phase reports `should_restart_main_loop`, the stopping poll has
already cleared `charge_requested` and `abort_requested`. -/
theorem run_phase_restart_flags (obs : ℕ → Arrivals) (body : ℕ → Costume → Costume)
    (l : List ℕ) :
    ∀ c : Costume, (run_phase obs body l c).1 = true →
      (run_phase obs body l c).2.sm.charge_requested = false ∧
      (run_phase obs body l c).2.sm.abort_requested = false := by
  induction l with
  | nil =>
      intro c h
      exact absurd h (by simp [run_phase])
  | cons t rest ih =>
      intro c h
      rcases hP : c.poll obs with ⟨b, c1⟩
      cases b
      · have hflags := poll_false_flags obs c (by rw [hP])
        rw [hP] at hflags
        simp only [run_phase, hP]
        exact hflags
      · simp only [run_phase, hP] at h ⊢
        exact ih _ h

/-- However a charge cycle ends — aborted in any phase or run to
completion — `charge_requested` is down when control returns to the idle
wait. -/
theorem run_charge_cycle_charge_cleared (inject : ℕ → ℤ) (obs : ℕ → Arrivals)
    (c : Costume) :
    (run_charge_cycle inject obs c).sm.charge_requested = false := by
  unfold run_charge_cycle
  rcases h1 : run_phase obs (charge_body inject)
      (List.range (num_leds * num_times_to_charge)) c with ⟨b1, c1⟩
  cases b1
  · rcases h2 : run_phase obs (fade_body (step_sizes_of c1.pixels))
        (List.range num_steps) c1 with ⟨b2, c2⟩
    cases b2
    · simp [h2]
    · have h3 := run_phase_restart_flags obs (fade_body (step_sizes_of c1.pixels))
        (List.range num_steps) c1 (by rw [h2])
      rw [h2] at h3
      simp only [h2]
      exact h3.1
  · have h3 := run_phase_restart_flags obs (charge_body inject)
      (List.range (num_leds * num_times_to_charge)) c (by rw [h1])
    rw [h1] at h3
    simpa using h3.1

/-- A cycle entered with an abort already observable at its first poll runs
no phase at all: it reduces to the abort-poll effect. -/
theorem run_charge_cycle_abort_entry (inject : ℕ → ℤ) (obs : ℕ → Arrivals)
    (c : Costume) (h : (c.sm.abort_requested || (obs c.polls).abort) = true) :
    run_charge_cycle inject obs c = (c.poll obs).2 := by
  obtain ⟨h1, _⟩ := poll_abort obs c h
  have hrange : List.range (num_leds * num_times_to_charge) =
      0 :: (List.range 287).map (· + 1) := by
    rw [show num_leds * num_times_to_charge = 287 + 1 by decide]
    exact List.range_succ_eq_map 287
  unfold run_charge_cycle
  rw [hrange, run_phase_abort_head obs (charge_body inject) _ _ c h1]

/-! ## The quiet full cycle and its frame cadence -/





/-- With no handler activity and clear flags, the cycle never aborts and
equals `cycle_fold`. -/
theorem run_charge_cycle_quiet_clear (inject : ℕ → ℤ) (c : Costume)
    (hc : flags_clear c.sm) :
    run_charge_cycle inject quiet c = cycle_fold inject c := by
  have hAsm : flags_clear (cycle_charge_fold inject c).sm := by
    rw [cycle_charge_fold, phase_fold_sm _ (charge_body_sm inject)]; exact hc
  have hA : run_phase quiet (charge_body inject)
      (List.range (num_leds * num_times_to_charge)) c = (false, cycle_charge_fold inject c) :=
    run_phase_quiet_clear _ (charge_body_sm inject) _ c hc
  have hB : run_phase quiet
      (fade_body (step_sizes_of (cycle_charge_fold inject c).pixels))
      (List.range num_steps) (cycle_charge_fold inject c) =
        (false, cycle_fade_fold inject c) :=
    run_phase_quiet_clear _ (fade_body_sm _) _ _ hAsm
  have hBsm : flags_clear (cycle_fade_fold inject c).sm := by
    rw [cycle_fade_fold, phase_fold_sm _ (fade_body_sm _)]; exact hAsm
  have hCsm : flags_clear (final_snap (cycle_fade_fold inject c)).sm := by
    rw [final_snap_sm]; exact hBsm
  have hR := resonate_phase_quiet_clear resonating_values starting_point_nat 5
    (final_snap (cycle_fade_fold inject c)) hCsm
  unfold run_charge_cycle cycle_fold cycle_resonate_fold
  simp only [hA, hB, hR]

/-- The poll/frame cadence of a full undisturbed cycle: phases 1 and 2 poll
before every frame, the final snap frame has no preceding poll, and the
resonate phase polls once per repetition before 40 consecutive frames. -/
theorem cycle_fold_trace (inject : ℕ → ℤ) (c : Costume) :
    (cycle_fold inject c).trace =
      c.trace ++ repeat_list (num_leds * num_times_to_charge) [Ev.poll, Ev.frame]
        ++ repeat_list num_steps [Ev.poll, Ev.frame]
        ++ [Ev.frame]
        ++ repeat_list 5 (Ev.poll :: List.replicate resonating_values.length Ev.frame) := by
  show (cycle_resonate_fold inject c).trace = _
  rw [cycle_resonate_fold, resonate_fold_trace]
  rw [final_snap_trace]
  rw [cycle_fade_fold, phase_fold_trace _ (fade_body_trace _)]
  rw [cycle_charge_fold, phase_fold_trace _ (charge_body_trace inject)]
  simp [List.append_assoc]

/-- Frame count of a full undisturbed cycle: 288 charge frames, 20 fade
frames, 1 snap frame, and 5 × 40 resonance frames. -/
theorem cycle_fold_flushed (inject : ℕ → ℤ) (c : Costume) :
    (cycle_fold inject c).flushed.length =
      c.flushed.length + num_leds * num_times_to_charge + num_steps + 1 +
        5 * resonating_values.length := by
  show (cycle_resonate_fold inject c).flushed.length = _
  rw [cycle_resonate_fold, resonate_fold_flushed]
  rw [final_snap_flushed]
  rw [cycle_fade_fold, phase_fold_flushed _ (fade_body_flushed _)]
  rw [cycle_charge_fold, phase_fold_flushed _ (charge_body_flushed inject)]
  simp

/-! ## The intensity trajectory is blind to mode toggles -/

/-- Two abort-free runs of the cycle from states with the same intensity
trajectory produce the same intensity trajectory, whatever toggles or
redundant charge presses each environment delivers and whatever the two
modes are.  The toggle path only repaints channels at the current
intensities. -/
theorem run_charge_cycle_intensities (inject : ℕ → ℤ) (obs1 obs2 : ℕ → Arrivals)
    (ho1 : ∀ k, (obs1 k).abort = false) (ho2 : ∀ k, (obs2 k).abort = false)
    (c1 c2 : Costume) (ha1 : c1.sm.abort_requested = false)
    (ha2 : c2.sm.abort_requested = false) (hi : c1.intensities = c2.intensities) :
    (run_charge_cycle inject obs1 c1).intensities =
      (run_charge_cycle inject obs2 c2).intensities := by
  obtain ⟨p1, q1, r1⟩ := run_phase_no_abort (charge_body inject)
    (fun t l => shift_ints (inject t) l) (charge_body_sm inject)
    (charge_body_intensities inject) obs1 ho1
    (List.range (num_leds * num_times_to_charge)) c1 ha1
  obtain ⟨p2, q2, r2⟩ := run_phase_no_abort (charge_body inject)
    (fun t l => shift_ints (inject t) l) (charge_body_sm inject)
    (charge_body_intensities inject) obs2 ho2
    (List.range (num_leds * num_times_to_charge)) c2 ha2
  rcases hP1 : run_phase obs1 (charge_body inject)
      (List.range (num_leds * num_times_to_charge)) c1 with ⟨b1, d1⟩
  rcases hP2 : run_phase obs2 (charge_body inject)
      (List.range (num_leds * num_times_to_charge)) c2 with ⟨b2, d2⟩
  rw [hP1] at p1 q1 r1
  rw [hP2] at p2 q2 r2
  simp only at p1 p2 q1 q2 r1 r2
  subst p1; subst p2
  have hd : d1.intensities = d2.intensities := by rw [r1, r2, hi]
  have hsteps : step_sizes_of d1.pixels = step_sizes_of d2.pixels := by
    rw [step_sizes_of_intensities, step_sizes_of_intensities]
    show (d1.intensities).map _ = (d2.intensities).map _
    rw [hd]
  obtain ⟨f1, g1, s1⟩ := run_phase_no_abort (fade_body (step_sizes_of d1.pixels))
    (fun _ l => fade_ints (step_sizes_of d1.pixels) l) (fade_body_sm _)
    (fade_body_intensities _) obs1 ho1 (List.range num_steps) d1 q1
  obtain ⟨f2, g2, s2⟩ := run_phase_no_abort (fade_body (step_sizes_of d2.pixels))
    (fun _ l => fade_ints (step_sizes_of d2.pixels) l) (fade_body_sm _)
    (fade_body_intensities _) obs2 ho2 (List.range num_steps) d2 q2
  rcases hQ1 : run_phase obs1 (fade_body (step_sizes_of d1.pixels))
      (List.range num_steps) d1 with ⟨e1, m1⟩
  rcases hQ2 : run_phase obs2 (fade_body (step_sizes_of d2.pixels))
      (List.range num_steps) d2 with ⟨e2, m2⟩
  rw [hQ1] at f1 g1 s1
  rw [hQ2] at f2 g2 s2
  simp only at f1 f2 g1 g2 s1 s2
  subst f1; subst f2
  have hm : m1.intensities = m2.intensities := by
    rw [s1, s2, hsteps, hd]
  have hmlen : m1.pixels.length = m2.pixels.length := by
    rw [← intensities_length, ← intensities_length, hm]
  have hsnap : (final_snap m1).intensities = (final_snap m2).intensities := by
    rw [final_snap_intensities, final_snap_intensities, hmlen]
  have hsab1 : (final_snap m1).sm.abort_requested = false := by
    rw [final_snap_sm]; exact g1
  have hsab2 : (final_snap m2).sm.abort_requested = false := by
    rw [final_snap_sm]; exact g2
  obtain ⟨_, t1⟩ := resonate_phase_no_abort obs1 ho1 resonating_values
    starting_point_nat 5 (final_snap m1) hsab1
  obtain ⟨_, t2⟩ := resonate_phase_no_abort obs2 ho2 resonating_values
    starting_point_nat 5 (final_snap m2) hsab2
  unfold run_charge_cycle
  simp only [hP1, hP2, hQ1, hQ2]
  show (resonate_phase obs1 _ _ _ _).intensities = (resonate_phase obs2 _ _ _ _).intensities
  rw [t1, t2, hsnap]

/-! ## Element-wise facts about the frame bodies -/

theorem shift_ints_head (v : ℤ) (l : List ℤ) (h : 0 < l.length) :
    (shift_ints v l)[0]? = some v := by
  cases l with
  | nil => simp at h
  | cons a rest => simp [shift_ints]

theorem shift_ints_get (v : ℤ) (l : List ℤ) (i : ℕ) (h1 : 1 ≤ i) (h2 : i < l.length) :
    (shift_ints v l)[i]? = l[i - 1]? := by
  cases l with
  | nil => simp at h2
  | cons a rest =>
      obtain ⟨j, rfl⟩ : ∃ j, i = j + 1 := ⟨i - 1, by omega⟩
      simp only [shift_ints, List.getElem?_cons_succ]
      rw [List.getElem?_dropLast]
      simp only [List.length_cons] at h2 ⊢
      rw [if_pos (by omega)]
      simp

/-- The per-pixel fade update: the captured step is added, Python `int`
truncates, and the result is clamped below at 0. -/
theorem fade_ints_get (steps : List ℚ) (l : List ℤ) (i : ℕ) (a : ℤ) (s : ℚ)
    (ha : l[i]? = some a) (hs : steps[i]? = some s) :
    (fade_ints steps l)[i]? = some (clamp0 (py_int ((a : ℚ) + s))) := by
  induction l generalizing steps i with
  | nil => simp at ha
  | cons b rest ih =>
      cases steps with
      | nil => simp at hs
      | cons s0 srest =>
          cases i with
          | zero =>
              simp only [List.getElem?_cons_zero, Option.some.injEq] at ha hs
              subst ha; subst hs
              simp [fade_ints, List.zip_cons_cons]
          | succ j =>
              simp only [List.getElem?_cons_succ] at ha hs
              simp only [fade_ints, List.zip_cons_cons, List.map_cons,
                List.getElem?_cons_succ]
              exact ih srest j ha hs

theorem clamp0_nonneg (n : ℤ) : 0 ≤ clamp0 n := by
  unfold clamp0
  split <;> omega

/-- Every intensity coming out of a fade frame is clamped at or above 0. -/
theorem fade_ints_nonneg (steps : List ℚ) (l : List ℤ) :
    ∀ x ∈ fade_ints steps l, 0 ≤ x := by
  intro x hx
  unfold fade_ints at hx
  obtain ⟨as, _, rfl⟩ := List.mem_map.mp hx
  exact clamp0_nonneg _

/-- Element-wise behaviour of one resonance table entry: pixels from
position `start` on take the table value, the others are untouched. -/
theorem resonate_apply_get (val : ℤ) (e : Bool) (start : ℕ) :
    ∀ (l : List StrangePixel) (i j : ℕ),
      (resonate_apply val e start i l)[j]? =
        (l[j]?).map fun p => if start ≤ i + j then p.set_pixel_intensity val e else p := by
  intro l
  induction l with
  | nil => intro i j; simp [resonate_apply]
  | cons p rest ih =>
      intro i j
      cases j with
      | zero => simp [resonate_apply]
      | succ k =>
          simp only [resonate_apply, List.getElem?_cons_succ]
          rw [ih (i + 1) k]
          rw [show i + 1 + k = i + (k + 1) by omega]

/-- One full repetition leaves every pixel strictly below `start` untouched. -/
theorem resonate_rep_below_start (vals : List ℤ) (start : ℕ) :
    ∀ (c : Costume) (j : ℕ), j < start →
      (resonate_rep vals start c).pixels[j]? = c.pixels[j]? := by
  induction vals with
  | nil => intro c j _; rfl
  | cons v rest ih =>
      intro c j hj
      show (resonate_rep rest start _).pixels[j]? = _
      rw [ih _ j hj]
      show (resonate_apply v c.sm.evil start 0 c.pixels)[j]? = _
      rw [resonate_apply_get]
      have hng : ¬ start ≤ j := by omega
      simp [hng]

/-- One full repetition ends with every pixel from `start` on holding the
last table value. -/
theorem resonate_apply_at_start (val : ℤ) (e : Bool) (start : ℕ) (c : Costume)
    (j : ℕ) (hj : start ≤ j) (hlen : j < c.pixels.length) :
    ((resonate_apply val e start 0 c.pixels)[j]?).map (fun p => p.intensity) =
      some val := by
  rw [resonate_apply_get]
  rw [List.getElem?_eq_getElem hlen]
  simp [hj, set_pixel_intensity_intensity]

/-! ## Debounce-layer lemmas -/

theorem set_armed_flag (s : IrqState) (l l' : Line) (b : Bool) :
    (s.set_armed l b).flag l' = s.flag l' := by
  cases l <;> cases l' <;> rfl

theorem set_flag_armed (s : IrqState) (l l' : Line) (b : Bool) :
    (s.set_flag l b).armed l' = s.armed l' := by
  cases l <;> cases l' <;> rfl

theorem set_armed_armed_self (s : IrqState) (l : Line) (b : Bool) :
    (s.set_armed l b).armed l = b := by
  cases l <;> rfl

theorem set_flag_flag_self (s : IrqState) (l : Line) (b : Bool) :
    (s.set_flag l b).flag l = b := by
  cases l <;> rfl

theorem armed_timer_update (s : IrqState) (t : Option Line) (l : Line) :
    ({ s with timer := t } : IrqState).armed l = s.armed l := by
  cases l <;> rfl

theorem flag_timer_update (s : IrqState) (t : Option Line) (l : Line) :
    ({ s with timer := t } : IrqState).flag l = s.flag l := by
  cases l <;> rfl

/-- With edge detection disabled (`pin.irq(handler=None)`), further raw
edges on the line do nothing at all. -/
theorem irq_edge_disarmed (l : Line) (s : IrqState) (h : s.armed l = false) :
    irq_step s (IrqEvent.edge l) = s := by
  simp [irq_step, h]

theorem irq_run_edges_disarmed (l : Line) (n : ℕ) :
    ∀ s : IrqState, s.armed l = false →
      irq_run s (List.replicate n (IrqEvent.edge l)) = s ∧
      count_flag_sets l s (List.replicate n (IrqEvent.edge l)) = 0 := by
  induction n with
  | zero => intro s _; exact ⟨rfl, rfl⟩
  | succ m ih =>
      intro s h
      rw [List.replicate_succ]
      constructor
      · show irq_run (irq_step s (IrqEvent.edge l)) _ = s
        rw [irq_edge_disarmed l s h]
        exact (ih s h).1
      · show (if handler_fires s (IrqEvent.edge l) l then 1 else 0) + _ = 0
        rw [if_neg (by simp [handler_fires, h]), irq_edge_disarmed l s h]
        simpa using (ih s h).2

/-- The state right after the first armed edge: detection disabled, flag up,
the shared timer claimed for this line's re-arm. -/
theorem irq_first_edge (l : Line) (s : IrqState) (h : s.armed l = true) :
    irq_step s (IrqEvent.edge l) =
      { (s.set_armed l false).set_flag l true with timer := some l } := by
  simp [irq_step, h]

/-! ## The sinusoid of the charge-up phase -/

theorem amplitudeR_eq : amplitudeR = 127.5 := by
  unfold amplitudeR max_val
  norm_num

/-- `pixels[i].x` as fixed at construction matches the spec's phase formula
`i · 2π · wave_count / N − π/2`. -/
theorem pixel_x_formula (i : ℕ) :
    pixel_x i = (i : ℝ) * (2 * Real.pi * (num_charging_waves : ℝ) / (num_leds : ℝ))
      - Real.pi / 2 := by
  unfold pixel_x initial_offset
  have h144 : ((num_leds : ℕ) : ℝ) = 144 := by norm_num [num_leds]
  have h3 : ((num_charging_waves : ℕ) : ℝ) = 3 := by norm_num [num_charging_waves]
  rw [h144, h3]
  field_simp
  ring

/-- Frame 0 of the charge phase injects intensity 0 at pixel 0:
`int(127.5 + 127.5·sin(−π/2)) = 0`. -/
theorem injected_intensity_zero : injected_intensity 0 = 0 := by
  have h0 : pixel_x 0 - this_shift 0 = -(Real.pi / 2) := by
    unfold pixel_x this_shift initial_offset
    push_cast
    ring
  have hval : amplitudeR + amplitudeR * Real.sin (pixel_x 0 - this_shift 0) = 0 := by
    rw [h0, Real.sin_neg, Real.sin_pi_div_two]
    ring
  unfold injected_intensity py_int_real
  rw [hval, if_pos le_rfl, Int.floor_zero]

/-! ## Element-wise behaviour of one charge frame -/

theorem charge_body_head (inject : ℕ → ℤ) (t : ℕ) (c : Costume)
    (h : 0 < c.pixels.length) :
    (charge_body inject t c).intensities[0]? = some (inject t) := by
  rw [charge_body_intensities]
  exact shift_ints_head _ _ (by rw [intensities_length]; exact h)

theorem charge_body_shift_elem (inject : ℕ → ℤ) (t : ℕ) (c : Costume) (i : ℕ)
    (h1 : 1 ≤ i) (h2 : i < c.pixels.length) :
    (charge_body inject t c).intensities[i]? = c.intensities[i - 1]? := by
  rw [charge_body_intensities]
  exact shift_ints_get _ _ i h1 (by rw [intensities_length]; exact h2)

/-! ## Claim C7: the channel derivation -/

/-- C7: for every intensity in [0, 255] and every mode, the channel
derivation stores the intensity and returns (0, intensity, 0) in benign
mode and (intensity, 0, intensity) in adverse mode; it is total (a Lean
function) and range-preserving: every returned channel lies in [0, 255]. -/
theorem c7_derive_channels_range (p : StrangePixel) (intensity : ℤ) (evil : Bool)
    (h0 : 0 ≤ intensity) (h255 : intensity ≤ 255) :
    ((p.set_pixel_intensity intensity evil).intensity = intensity) ∧
    (evil = false →
      (p.set_pixel_intensity intensity evil).red = 0 ∧
      (p.set_pixel_intensity intensity evil).green = intensity ∧
      (p.set_pixel_intensity intensity evil).blue = 0) ∧
    (evil = true →
      (p.set_pixel_intensity intensity evil).red = intensity ∧
      (p.set_pixel_intensity intensity evil).green = 0 ∧
      (p.set_pixel_intensity intensity evil).blue = intensity) ∧
    (0 ≤ (p.set_pixel_intensity intensity evil).red ∧
      (p.set_pixel_intensity intensity evil).red ≤ 255) ∧
    (0 ≤ (p.set_pixel_intensity intensity evil).green ∧
      (p.set_pixel_intensity intensity evil).green ≤ 255) ∧
    (0 ≤ (p.set_pixel_intensity intensity evil).blue ∧
      (p.set_pixel_intensity intensity evil).blue ≤ 255) := by
  cases evil <;> simp [StrangePixel.set_pixel_intensity] <;> omega

/-- Witness for C7 at intensity 100 in adverse mode. -/
theorem c7_witness :
    ((demo_pixel 0 0).set_pixel_intensity 100 true).red = 100 ∧
    ((demo_pixel 0 0).set_pixel_intensity 100 true).green = 0 ∧
    ((demo_pixel 0 0).set_pixel_intensity 100 true).blue = 100 :=
  (c7_derive_channels_range (demo_pixel 0 0) 100 true (by decide) (by decide)).2.2.1 rfl

/-! ## Claim C4: the resonance table -/

theorem starting_point_for_resonating_eq : starting_point_for_resonating = 97 := by
  unfold starting_point_for_resonating py_int lights_per_period periods_ignored
    num_leds num_charging_waves
  norm_num

theorem starting_point_nat_eq : starting_point_nat = 97 := by
  unfold starting_point_nat
  rw [starting_point_for_resonating_eq]
  rfl

theorem starting_point_round_formula :
    starting_point_for_resonating =
      round ((num_leds : ℚ) * ((num_charging_waves : ℚ) - 1) /
        (num_charging_waves : ℚ)) + 1 := by
  rw [starting_point_for_resonating_eq, round_eq]
  norm_num [num_leds, num_charging_waves]

theorem resonating_values_length : resonating_values.length = 40 := by decide

/-- C4 as stated is false at the table itself: the literal
`resonating_value_modifiers` has 40 entries (21 rising, 19 falling), not
39. -/
theorem c4_counterexample :
    resonating_value_modifiers.length = 40 ∧
      ¬ resonating_value_modifiers.length = 39 := by
  decide

/-- C4 amended: the resonate phase performs 5 repetitions of the fixed
triangular table of exactly 40 entries (0..20 rising then 19..1 falling in
unit steps), each entry applied as `target_value` plus the table value,
only to pixels at positions ≥ 97 (= `int(N·(w−1)/w + 1)` =
`round(N·(w−1)/w) + 1` for N = 144, w = 3); exactly one frame is flushed
per table entry, 200 frames in all. -/
theorem c4_resonance_table :
    resonating_value_modifiers.length = 40 ∧
    (∀ k : ℕ, k < 21 → resonating_value_modifiers[k]? = some (k : ℤ)) ∧
    (∀ k : ℕ, k < 40 → 21 ≤ k →
      resonating_value_modifiers[k]? = some ((40 : ℤ) - (k : ℤ))) ∧
    (∀ k : ℕ, k < 40 →
      resonating_values[k]? =
        (resonating_value_modifiers[k]?).map fun x => target_value + x) ∧
    starting_point_for_resonating = 97 ∧
    starting_point_nat = 97 ∧
    starting_point_for_resonating =
      round ((num_leds : ℚ) * ((num_charging_waves : ℚ) - 1) / (num_charging_waves : ℚ)) + 1 ∧
    (∀ c : Costume,
      (resonate_rep resonating_values starting_point_nat c).flushed.length =
        c.flushed.length + 40) ∧
    (∀ (c : Costume) (j : ℕ), j < 97 →
      (resonate_rep resonating_values starting_point_nat c).pixels[j]? =
        c.pixels[j]?) ∧
    (∀ (val : ℤ) (e : Bool) (c : Costume) (j : ℕ), 97 ≤ j → j < c.pixels.length →
      ((resonate_apply val e starting_point_nat 0 c.pixels)[j]?).map
        (fun p => p.intensity) = some val) ∧
    (∀ c : Costume, flags_clear c.sm →
      (resonate_phase quiet resonating_values starting_point_nat 5 c).flushed.length =
        c.flushed.length + 200) := by
  refine ⟨by decide, by decide, by decide, by decide, starting_point_for_resonating_eq,
    starting_point_nat_eq, starting_point_round_formula, ?_, ?_, ?_, ?_⟩
  · intro c
    rw [resonate_rep_flushed, resonating_values_length]
  · intro c j hj
    exact resonate_rep_below_start resonating_values starting_point_nat c j
      (by rw [starting_point_nat_eq]; exact hj)
  · intro val e c j hj hlen
    exact resonate_apply_at_start val e starting_point_nat c j
      (by rw [starting_point_nat_eq]; exact hj) hlen
  · intro c hc
    rw [resonate_phase_quiet_clear resonating_values starting_point_nat 5 c hc,
      resonate_fold_flushed, resonating_values_length]

/-- Witness for C4's amended per-costume parts at a concrete costume. -/
theorem c4_witness :
    (resonate_rep resonating_values starting_point_nat demo_costume).flushed.length =
      demo_costume.flushed.length + 40 ∧
    (resonate_rep resonating_values starting_point_nat demo_costume).pixels[0]? =
      demo_costume.pixels[0]? :=
  ⟨c4_resonance_table.2.2.2.2.2.2.2.1 demo_costume,
   c4_resonance_table.2.2.2.2.2.2.2.2.1 demo_costume 0 (by decide)⟩

/-! ## Claim C5: debounce and the shared timer -/

/-- C5 as stated is false: the three lines share one `Timer` object, so a
press on the moral line re-initialises the pending re-arm scheduled for the
charge line; after the shared timer fires, the charge line is still
disarmed and nothing is pending to re-arm it. -/
theorem c5_counterexample :
    (irq_run irq_initial [IrqEvent.edge Line.charge_button]).timer =
      some Line.charge_button ∧
    (irq_run irq_initial [IrqEvent.edge Line.charge_button,
        IrqEvent.edge Line.good_evil_button]).timer = some Line.good_evil_button ∧
    (irq_run irq_initial [IrqEvent.edge Line.charge_button,
        IrqEvent.edge Line.good_evil_button, IrqEvent.timer_fire]).charge_armed
      = false ∧
    (irq_run irq_initial [IrqEvent.edge Line.charge_button,
        IrqEvent.edge Line.good_evil_button, IrqEvent.timer_fire]).timer = none := by
  decide

/-- C5 amended: the debounce timer is a single shared one-shot — an armed
edge on any line claims it, cancelling any other line's pending re-arm —
but for a single line, a burst of K ≥ 1 rising edges with no timer expiry
in between sets that line's flag exactly once: detection is disabled by the
first edge before the flag is set and only re-enabled by timer expiry. -/
theorem c5_debounce_burst (l : Line) (s : IrqState) (K : ℕ) (hK : 1 ≤ K)
    (harm : s.armed l = true) :
    count_flag_sets l s (List.replicate K (IrqEvent.edge l)) = 1 ∧
    (irq_run s (List.replicate K (IrqEvent.edge l))).flag l = true ∧
    (irq_run s (List.replicate K (IrqEvent.edge l))).armed l = false ∧
    (irq_run s (List.replicate K (IrqEvent.edge l))).timer = some l ∧
    (∀ (l' : Line) (s' : IrqState), s'.armed l' = true →
      (irq_step s' (IrqEvent.edge l')).timer = some l') := by
  obtain ⟨n, rfl⟩ : ∃ n, K = n + 1 := ⟨K - 1, by omega⟩
  have hs1 := irq_first_edge l s harm
  have harm1 : (irq_step s (IrqEvent.edge l)).armed l = false := by
    rw [hs1, armed_timer_update, set_flag_armed, set_armed_armed_self]
  obtain ⟨hrun, hcount⟩ := irq_run_edges_disarmed l n (irq_step s (IrqEvent.edge l)) harm1
  refine ⟨?_, ?_, ?_, ?_, ?_⟩
  · rw [List.replicate_succ]
    show (if handler_fires s (IrqEvent.edge l) l then 1 else 0) + _ = 1
    rw [if_pos (by simp [handler_fires, harm]), hcount]
  · rw [List.replicate_succ]
    show (irq_run (irq_step s (IrqEvent.edge l)) _).flag l = true
    rw [hrun, hs1, flag_timer_update, set_flag_flag_self]
  · rw [List.replicate_succ]
    show (irq_run (irq_step s (IrqEvent.edge l)) _).armed l = false
    rw [hrun]
    exact harm1
  · rw [List.replicate_succ]
    show (irq_run (irq_step s (IrqEvent.edge l)) _).timer = some l
    rw [hrun, hs1]
  · intro l' s' h'
    rw [irq_first_edge l' s' h']

/-- Witness for C5's amended claim: a burst of 3 edges on the charge line
from the initial state sets the flag exactly once. -/
theorem c5_witness :
    count_flag_sets Line.charge_button irq_initial
      (List.replicate 3 (IrqEvent.edge Line.charge_button)) = 1 ∧
    (irq_run irq_initial
      (List.replicate 3 (IrqEvent.edge Line.charge_button))).flag
        Line.charge_button = true :=
  ⟨(c5_debounce_burst Line.charge_button irq_initial 3 (by decide) (by decide)).1,
   (c5_debounce_burst Line.charge_button irq_initial 3 (by decide) (by decide)).2.1⟩

/-! ## Claim C9: the channel-range fault at the display boundary -/

/-- C9 as stated is false: an out-of-range triple reaching the strip write
does propagate out of `update` with the offending triple (it is not
truncated), but the `except Exception` at the cycle boundary catches it and
the main loop keeps running — it is downgraded to a recovered, non-fatal
condition rather than terminating the process. -/
theorem c9_counterexample :
    bad_costume.update_checked = Except.error (300, 0, 300) ∧
    cycle_catch (Except.error (300, 0, 300)) = LoopDisposition.keep_running ∧
    ¬ cycle_catch (Except.error (300, 0, 300)) = LoopDisposition.process_terminated := by
  refine ⟨rfl, rfl, by decide⟩

/-- C9 amended: a channel value outside [0, 255] reaching the display write
raises an error carrying the exact offending (red, green, blue) triple —
never a silent truncation — but the cycle-level exception handler catches
it, logs it, and the loop keeps running; the process is not terminated. -/
theorem c9_channel_fault_recovered (pre : List StrangePixel) (p : StrangePixel)
    (post : List StrangePixel) (c : Costume)
    (hpix : c.pixels = pre ++ p :: post)
    (hpre : ∀ q ∈ pre, rgb_in_range (q.red, q.green, q.blue) = true)
    (hbad : rgb_in_range (p.red, p.green, p.blue) = false) :
    c.update_checked = Except.error (p.red, p.green, p.blue) ∧
    cycle_catch (Except.error (p.red, p.green, p.blue)) =
      LoopDisposition.keep_running := by
  refine ⟨?_, rfl⟩
  unfold Costume.update_checked
  rw [hpix]
  clear hpix
  induction pre with
  | nil => simp [update_checked_go, hbad]
  | cons q rest ih =>
      have hq := hpre q (by simp)
      show update_checked_go (q :: (rest ++ p :: post)) = _
      rw [update_checked_go, if_pos hq, ih (fun r hr => hpre r (by simp [hr]))]
      rfl

/-- Witness for C9's amended claim at the concrete corrupted costume. -/
theorem c9_witness :
    bad_costume.update_checked =
      Except.error (((300 : ℤ), (0 : ℤ), (300 : ℤ))) :=
  (c9_channel_fault_recovered [demo_pixel 0 10]
    { index := 1, intensity := 300, red := 300, green := 0, blue := 300 } []
    bad_costume rfl (by decide) (by decide)).1

/-! ## Claim C8: a charge press during a running cycle -/

/-- C8 as stated is false in one respect: at the next flag poll the pending
`charge_requested` is NOT cleared — `refresh_and_check_state` returns with
the flag still raised; it is only cleared when the cycle ends. -/
theorem c8_counterexample :
    (charge_pending_costume.refresh_and_check_state).1 = true ∧
    (charge_pending_costume.refresh_and_check_state).2.sm.charge_requested = true := by
  refine ⟨rfl, rfl⟩

/-- C8 amended: a `charge_requested` raised mid-cycle is ignored at every
poll — the poll returns the state completely unchanged (no pixel change,
no flush, no other flag touched), so the running sequence is unaffected —
and the flag is cleared unconditionally when the cycle ends (by the abort
handler if aborted, by the end-of-cycle reset otherwise), so charging can
never restart mid-sequence. -/
theorem c8_charge_ignored_midcycle (c : Costume)
    (hcg : c.sm.charge_requested = true)
    (hab : c.sm.abort_requested = false)
    (htg : c.sm.toggle_good_evil_requested = false) :
    c.refresh_and_check_state = (true, c) ∧
    (∀ (inject : ℕ → ℤ) (obs : ℕ → Arrivals) (c0 : Costume),
      (run_charge_cycle inject obs c0).sm.charge_requested = false) := by
  constructor
  · rcases c with ⟨pixels, ⟨cg, tg, ab, ev⟩, flushed, polls, trace⟩
    simp only at hcg hab htg
    subst hcg; subst hab; subst htg
    rfl
  · intro inject obs c0
    exact run_charge_cycle_charge_cleared inject obs c0

/-- Witness for C8's amended claim at a concrete mid-cycle state. -/
theorem c8_witness :
    charge_pending_costume.refresh_and_check_state = (true, charge_pending_costume) :=
  (c8_charge_ignored_midcycle charge_pending_costume rfl rfl rfl).1

/-! ## Claim C10: the idle wait -/

/-- C10: the idle wait reads only `charge_requested` — with it down a main
loop iteration changes nothing (pending toggle and abort presses are not
consumed: no mode flip, no recoloring, no flush); and when a charge press
finally starts a cycle with an abort still pending, the cycle's first poll
zeroes every intensity, flushes exactly one all-black frame, clears both
flags, and returns to the idle wait before any charge frame is shown. -/
theorem c10_idle_reads_only_charge (inject : ℕ → ℤ) (obs : ℕ → Arrivals)
    (c : Costume) :
    (c.sm.charge_requested = false → main_loop_iteration inject obs c = c) ∧
    (c.sm.charge_requested = true → c.sm.abort_requested = true →
      (main_loop_iteration inject obs c).intensities =
        List.replicate c.pixels.length 0 ∧
      (main_loop_iteration inject obs c).flushed =
        c.flushed ++ [c.pixels.map fun _ => ((0 : ℤ), (0 : ℤ), (0 : ℤ))] ∧
      (main_loop_iteration inject obs c).trace = c.trace ++ [Ev.poll, Ev.frame] ∧
      (main_loop_iteration inject obs c).sm.abort_requested = false ∧
      (main_loop_iteration inject obs c).sm.charge_requested = false) := by
  constructor
  · intro h
    simp [main_loop_iteration, h]
  · intro hcg hab
    have hred : main_loop_iteration inject obs c =
        run_charge_cycle inject obs
          { c with sm := { c.sm with charge_requested := false } } := by
      simp [main_loop_iteration, hcg]
    have habs : (({ c with sm := { c.sm with charge_requested := false } } :
        Costume).sm.abort_requested ||
          (obs ({ c with sm := { c.sm with charge_requested := false } } :
            Costume).polls).abort) = true := by
      show (c.sm.abort_requested || _) = true
      rw [hab, Bool.true_or]
    have hcycle := run_charge_cycle_abort_entry inject obs _ habs
    obtain ⟨h1, h2, h3, h4, h5, h6, h7, h8, h9⟩ := poll_abort obs _ habs
    rw [hred, hcycle]
    exact ⟨h3, h7, h8, h4, h5⟩

/-- Witness for C10 at a concrete idle state with charge and abort both
pending. -/
theorem c10_witness :
    (main_loop_iteration (fun _ => 0) quiet charge_abort_costume).intensities =
      List.replicate charge_abort_costume.pixels.length 0 ∧
    (main_loop_iteration (fun _ => 0) quiet charge_abort_costume).sm.charge_requested
      = false ∧
    main_loop_iteration (fun _ => 0) quiet pending_costume = pending_costume :=
  ⟨((c10_idle_reads_only_charge (fun _ => 0) quiet charge_abort_costume).2 rfl rfl).1,
   ((c10_idle_reads_only_charge (fun _ => 0) quiet charge_abort_costume).2 rfl rfl).2.2.2.2,
   (c10_idle_reads_only_charge (fun _ => 0) quiet pending_costume).1 rfl⟩

/-! ## Claim C6: mode toggles and the intensity trajectory -/

/-- Repainting every pixel at its own current intensity leaves the
intensity trajectory untouched. -/
theorem repaint_preserves_intensities (pix : List StrangePixel) (e : Bool) :
    (pix.map fun p => p.set_pixel_intensity p.intensity e).map
      (fun p => p.intensity) = pix.map fun p => p.intensity := by
  rw [List.map_map]
  exact List.map_congr_left fun p _ => set_pixel_intensity_intensity p p.intensity e

/-- C6: consuming a toggle flips the mode, recomputes every pixel's
channels at its current intensity (no intensity change), flushes exactly
one frame, and lets the phase continue; and the intensity trajectory of a
whole charge cycle is identical between any two abort-free runs starting
from the same intensities — in particular between a run with a toggle and
the run without it. -/
theorem c6_toggle_trajectory_invariance :
    (∀ c : Costume, c.sm.abort_requested = false →
      c.sm.toggle_good_evil_requested = true →
      (c.refresh_and_check_state).1 = true ∧
      (c.refresh_and_check_state).2.sm.evil = !c.sm.evil ∧
      (c.refresh_and_check_state).2.sm.toggle_good_evil_requested = false ∧
      (c.refresh_and_check_state).2.pixels =
        c.pixels.map (fun p => p.set_pixel_intensity p.intensity (!c.sm.evil)) ∧
      (c.refresh_and_check_state).2.intensities = c.intensities ∧
      (c.refresh_and_check_state).2.flushed = c.flushed ++
        [(c.pixels.map fun p => p.set_pixel_intensity p.intensity (!c.sm.evil)).map
          (fun p => (p.red, p.green, p.blue))]) ∧
    (∀ (inject : ℕ → ℤ) (obs1 obs2 : ℕ → Arrivals),
      (∀ k, (obs1 k).abort = false) → (∀ k, (obs2 k).abort = false) →
      ∀ c1 c2 : Costume, c1.sm.abort_requested = false →
        c2.sm.abort_requested = false → c1.intensities = c2.intensities →
        (run_charge_cycle inject obs1 c1).intensities =
          (run_charge_cycle inject obs2 c2).intensities) := by
  constructor
  · intro c hab htg
    unfold Costume.refresh_and_check_state Costume.update Costume.intensities
    by_cases hcg : c.sm.charge_requested = true <;>
      simp [hab, htg, hcg, repaint_preserves_intensities, set_pixel_intensity_intensity]
  · intro inject obs1 obs2 ho1 ho2 c1 c2 ha1 ha2 hi
    exact run_charge_cycle_intensities inject obs1 obs2 ho1 ho2 c1 c2 ha1 ha2 hi

/-- Witness for C6 at a concrete mid-cycle state with a pending toggle, and
for the trajectory part at the resting costume under two quiet runs. -/
theorem c6_witness :
    (toggle_pending_costume.refresh_and_check_state).1 = true ∧
    (toggle_pending_costume.refresh_and_check_state).2.intensities =
      toggle_pending_costume.intensities ∧
    (run_charge_cycle (fun _ => 0) quiet demo_costume).intensities =
      (run_charge_cycle (fun _ => 0) quiet demo_costume).intensities :=
  ⟨(c6_toggle_trajectory_invariance.1 toggle_pending_costume rfl rfl).1,
   (c6_toggle_trajectory_invariance.1 toggle_pending_costume rfl rfl).2.2.2.2.1,
   c6_toggle_trajectory_invariance.2 (fun _ => 0) quiet quiet (fun _ => rfl)
     (fun _ => rfl) demo_costume demo_costume rfl rfl rfl⟩

/-! ## Claim C3: the fade-to-target phase -/

/-- C3: the per-pixel step `(target_value − intensity_at_entry)/num_steps`
is captured once as a signed rational and applied unchanged at every one of
the `num_steps` (20) fade frames; each update truncates (`int`) and clamps
below at 0, with the accumulated truncation toward zero left uncorrected
(a pixel entering at 200 leaves the 20 fade frames at 0, not 15); absent an
abort the phase never stops early, and the final snap then sets every pixel
to exactly `target_value`, regardless of its starting intensity. -/
theorem c3_fade_to_target :
    (∀ (steps : List ℚ) (c : Costume), flags_clear c.sm →
      (run_phase quiet (fade_body steps) (List.range num_steps) c).1 = false ∧
      (run_phase quiet (fade_body steps) (List.range num_steps) c).2.flushed.length =
        c.flushed.length + num_steps) ∧
    (∀ (steps : List ℚ) (t : ℕ) (c : Costume) (x : ℤ),
      x ∈ (fade_body steps t c).intensities → 0 ≤ x) ∧
    (∀ (steps : List ℚ) (l : List ℤ) (i : ℕ) (a : ℤ) (s : ℚ),
      l[i]? = some a → steps[i]? = some s →
      (fade_ints steps l)[i]? = some (clamp0 (py_int ((a : ℚ) + s)))) ∧
    (∀ c : Costume,
      (final_snap c).intensities = List.replicate c.pixels.length target_value) ∧
    (run_phase quiet (fade_body (step_sizes_of fade_demo_costume.pixels))
      (List.range num_steps) fade_demo_costume).2.intensities = [0] ∧
    (final_snap (run_phase quiet (fade_body (step_sizes_of fade_demo_costume.pixels))
      (List.range num_steps) fade_demo_costume).2).intensities = [target_value] := by
  have hdemo : (run_phase quiet (fade_body (step_sizes_of fade_demo_costume.pixels))
      (List.range num_steps) fade_demo_costume).2.intensities = [0] := by
    rw [run_phase_quiet_clear _ (fade_body_sm _) _ fade_demo_costume ⟨rfl, rfl, rfl⟩]
    show (phase_fold _ _ _).intensities = _
    rw [phase_fold_intensities _ _ (fade_body_intensities _)]
    have hsteps : step_sizes_of fade_demo_costume.pixels = [(-37 : ℚ)/4] := by
      unfold step_sizes_of fade_demo_costume demo_pixel target_value num_steps
      norm_num
    rw [hsteps]
    have hv : ∀ v : ℤ, fade_ints [(-37 : ℚ)/4] [v] =
        [clamp0 (py_int ((v : ℚ) + (-37)/4))] := fun v => rfl
    show List.foldl _ [(200 : ℤ)] _ = _
    rw [show List.range num_steps =
      [0, 1, 2, 3, 4, 5, 6, 7, 8, 9, 10, 11, 12, 13, 14, 15, 16, 17, 18, 19] from rfl]
    simp only [List.foldl_cons, List.foldl_nil, hv]
    norm_num [py_int, clamp0]
  refine ⟨?_, ?_, ?_, ?_, hdemo, ?_⟩
  · intro steps c hc
    rw [run_phase_quiet_clear _ (fade_body_sm _) _ c hc]
    exact ⟨rfl, by rw [phase_fold_flushed _ (fade_body_flushed _), List.length_range]⟩
  · intro steps t c x hx
    rw [fade_body_intensities] at hx
    exact fade_ints_nonneg steps c.intensities x hx
  · intro steps l i a s ha hs
    exact fade_ints_get steps l i a s ha hs
  · intro c
    exact final_snap_intensities c
  · rw [final_snap_intensities]
    have hlen : (run_phase quiet (fade_body (step_sizes_of fade_demo_costume.pixels))
        (List.range num_steps) fade_demo_costume).2.pixels.length = 1 := by
      rw [← intensities_length, hdemo]
      rfl
    rw [hlen]
    rfl

/-- Witness for C3's quantified parts at concrete inputs. -/
theorem c3_witness :
    (run_phase quiet (fade_body []) (List.range num_steps) demo_costume).1 = false ∧
    (fade_ints [(1 : ℚ)] [(5 : ℤ)])[0]? = some (clamp0 (py_int ((5 : ℚ) + 1))) :=
  ⟨(c3_fade_to_target.1 [] demo_costume ⟨rfl, rfl, rfl⟩).1,
   c3_fade_to_target.2.2.1 [(1 : ℚ)] [(5 : ℤ)] 0 5 1 rfl rfl⟩

/-! ## Claim C2: the propagate-and-charge phase -/

/-- C2: the charge phase runs 2·N frames (absent an abort); each frame
shifts `pixel[i-1]`'s previous intensity into `pixel[i]` for i from N−1
down to 1 and recomputes `pixel[0]` as
`int(amplitude + amplitude·sin(phase₀ − shift))` with amplitude
= max_intensity/2 = 127.5, `shift = frame · 2π · wave_count / N`, and
`phase_i = i · 2π · wave_count / N − π/2` fixed at construction; at frame 0
the injected intensity is exactly 0. -/
theorem c2_charge_phase :
    (∀ c : Costume, flags_clear c.sm →
      (run_phase quiet (charge_body injected_intensity)
        (List.range (num_leds * num_times_to_charge)) c).1 = false ∧
      (run_phase quiet (charge_body injected_intensity)
        (List.range (num_leds * num_times_to_charge)) c).2.flushed.length =
          c.flushed.length + 2 * num_leds) ∧
    (∀ (t : ℕ) (c : Costume), 0 < c.pixels.length →
      (charge_body injected_intensity t c).intensities[0]? =
        some (injected_intensity t)) ∧
    (∀ (t : ℕ) (c : Costume) (i : ℕ), 1 ≤ i → i < c.pixels.length →
      (charge_body injected_intensity t c).intensities[i]? =
        c.intensities[i - 1]?) ∧
    (∀ t : ℕ, injected_intensity t =
      py_int_real (amplitudeR + amplitudeR * Real.sin (pixel_x 0 - this_shift t))) ∧
    amplitudeR = 127.5 ∧
    2 * amplitudeR = (max_val : ℝ) ∧
    (∀ i : ℕ, pixel_x i =
      (i : ℝ) * (2 * Real.pi * (num_charging_waves : ℝ) / (num_leds : ℝ))
        - Real.pi / 2) ∧
    (∀ t : ℕ, this_shift t =
      (t : ℝ) * (2 * Real.pi * (num_charging_waves : ℝ) / (num_leds : ℝ))) ∧
    injected_intensity 0 = 0 := by
  refine ⟨?_, ?_, ?_, fun t => rfl, amplitudeR_eq, ?_, pixel_x_formula, ?_, ?_⟩
  · intro c hc
    rw [run_phase_quiet_clear _ (charge_body_sm injected_intensity) _ c hc]
    refine ⟨rfl, ?_⟩
    rw [phase_fold_flushed _ (charge_body_flushed injected_intensity), List.length_range]
    norm_num [num_leds, num_times_to_charge]
  · intro t c h
    exact charge_body_head injected_intensity t c h
  · intro t c i h1 h2
    exact charge_body_shift_elem injected_intensity t c i h1 h2
  · unfold amplitudeR max_val
    norm_num
  · intro t
    unfold this_shift
    ring
  · exact injected_intensity_zero

/-- Witness for C2's quantified parts at concrete inputs. -/
theorem c2_witness :
    (charge_body injected_intensity 5 demo_costume).intensities[0]? =
      some (injected_intensity 5) ∧
    (charge_body injected_intensity 5 demo_costume).intensities[1]? =
      demo_costume.intensities[0]? :=
  ⟨c2_charge_phase.2.1 5 demo_costume (by decide),
   c2_charge_phase.2.2.1 5 demo_costume 1 (by decide) (by decide)⟩

/-! ## Claim C1: polling cadence and abort handling -/

set_option maxRecDepth 8000 in
/-- C1 as stated is false in the resonate phase: its trace contains
consecutive flushed frames with no poll between them — the flags are polled
once per repetition (5 polls for 200 frames), not between table-entry
frames. -/
theorem c1_counterexample :
    (resonate_phase quiet resonating_values starting_point_nat 5
      demo_costume).trace[1]? = some Ev.frame ∧
    (resonate_phase quiet resonating_values starting_point_nat 5
      demo_costume).trace[2]? = some Ev.frame ∧
    (resonate_phase quiet resonating_values starting_point_nat 5
      demo_costume).trace.count Ev.poll = 5 ∧
    (resonate_phase quiet resonating_values starting_point_nat 5
      demo_costume).trace.count Ev.frame = 200 := by
  have h := resonate_phase_quiet_clear resonating_values starting_point_nat 5
    demo_costume ⟨rfl, rfl, rfl⟩
  rw [h, resonate_fold_trace]
  decide

/-- C1 amended: whenever `abort_requested` is observed at a poll, every
pixel's intensity is set to 0, exactly one all-black frame is flushed, both
`abort_requested` and `charge_requested` are cleared, the current phase is
abandoned with no further frame, and the cycle returns to the idle wait
without executing any remaining phase.  The flags are polled before every
frame of the propagate and fade phases; but the resonate phase polls only
once per repetition, before each block of 40 consecutive table-entry
frames, and no poll precedes the fade phase's final snap frame. -/
theorem c1_abort_and_poll_cadence :
    (∀ (obs : ℕ → Arrivals) (c : Costume),
      (c.sm.abort_requested || (obs c.polls).abort) = true →
      (c.poll obs).1 = false ∧
      (c.poll obs).2.intensities = List.replicate c.pixels.length 0 ∧
      (c.poll obs).2.flushed =
        c.flushed ++ [c.pixels.map fun _ => ((0 : ℤ), (0 : ℤ), (0 : ℤ))] ∧
      (c.poll obs).2.sm.abort_requested = false ∧
      (c.poll obs).2.sm.charge_requested = false ∧
      (∀ (body : ℕ → Costume → Costume) (t : ℕ) (rest : List ℕ),
        run_phase obs body (t :: rest) c = (true, (c.poll obs).2)) ∧
      (∀ (vals : List ℤ) (start reps : ℕ),
        resonate_phase obs vals start (reps + 1) c = (c.poll obs).2) ∧
      (∀ inject : ℕ → ℤ, run_charge_cycle inject obs c = (c.poll obs).2)) ∧
    (∀ (inject : ℕ → ℤ) (c : Costume), flags_clear c.sm →
      (run_charge_cycle inject quiet c).trace =
        c.trace ++ repeat_list (num_leds * num_times_to_charge) [Ev.poll, Ev.frame]
          ++ repeat_list num_steps [Ev.poll, Ev.frame]
          ++ [Ev.frame]
          ++ repeat_list 5 (Ev.poll :: List.replicate 40 Ev.frame)) := by
  constructor
  · intro obs c h
    obtain ⟨h1, h2, h3, h4, h5, h6, h7, h8, h9⟩ := poll_abort obs c h
    refine ⟨h1, h3, h7, h4, h5, ?_, ?_, ?_⟩
    · intro body t rest
      exact run_phase_abort_head obs body t rest c h1
    · intro vals start reps
      exact resonate_abort_head obs vals start reps c h1
    · intro inject
      exact run_charge_cycle_abort_entry inject obs c h
  · intro inject c hc
    rw [run_charge_cycle_quiet_clear inject c hc, cycle_fold_trace,
      resonating_values_length]

/-- Witness for C1's amended claim: a pending abort observed at a concrete
poll, and the cadence of a full quiet cycle from the resting costume. -/
theorem c1_witness :
    (pending_costume.poll quiet).1 = false ∧
    (pending_costume.poll quiet).2.sm.charge_requested = false ∧
    (run_charge_cycle (fun _ => 0) quiet demo_costume).trace =
      demo_costume.trace
        ++ repeat_list (num_leds * num_times_to_charge) [Ev.poll, Ev.frame]
        ++ repeat_list num_steps [Ev.poll, Ev.frame]
        ++ [Ev.frame]
        ++ repeat_list 5 (Ev.poll :: List.replicate 40 Ev.frame) :=
  ⟨(c1_abort_and_poll_cadence.1 quiet pending_costume rfl).1,
   (c1_abort_and_poll_cadence.1 quiet pending_costume rfl).2.2.2.2.1,
   c1_abort_and_poll_cadence.2 (fun _ => 0) demo_costume ⟨rfl, rfl, rfl⟩⟩

end StrangePico
